import Mathlib

/-!
# Verification of the AurisAASI backend-core data-collection engines

This file gives a shallow embedding, in Lean 4, of the algorithmic core of the
repository's three data-collection engines and of the shared CNPJ validator:

* `validate_cnpj` (from `src/shared/utils.py`),
* the place-discovery engine `GMapsScrapper` (`src/models/scrappers/gmaps_scrapper.py`):
  quota ledger, pagination, id- and location-deduplication, detail enrichment,
* the registry-lookup engine `CompanyFederalScrapper`
  (`src/models/scrappers/company_federal_scrapper.py`): retry/backoff loop and
  terminal-status classification,
* the website-enrichment engine `WebsiteScrapper`
  (`src/models/scrappers/website_scrapper.py`): robots gate, page discovery and
  ranking, fetch loop and final status classification.

External effects (HTTP responses, LLM output, database behaviour) are supplied
as explicit environment values, so every run of an engine is a pure function of
its environment.  Machine floats of the Python source are modelled as rationals
for data and as real numbers for the trigonometric haversine distance.
-/

namespace Auris

/-! ## CNPJ validation (`src/shared/utils.py`, `validate_cnpj`)

The Python code strips every non-digit character with `re.sub(r'[^\d]', '', cnpj)`
and then works on the resulting digit string.  We model the digit string as the
list of numeric values of the decimal-digit characters of the input. -/

/-- The digits (as numbers 0–9) left after stripping all non-digit characters,
in order; this is the digit string `cnpj_digits` of the Python code.  (ASCII
digits; Python's `\d` additionally matches non-ASCII Unicode digits, which
registry IDs do not contain.) -/
def cnpjDigits (s : String) : List Nat :=
  (s.toList.filter Char.isDigit).map (fun c => c.toNat - 48)

/-- Weight vector used for the first CNPJ check digit (`weights_first`). -/
def weightsFirst : List Nat := [5, 4, 3, 2, 9, 8, 7, 6, 5, 4, 3, 2]

/-- Weight vector used for the second CNPJ check digit (`weights_second`). -/
def weightsSecond : List Nat := [6, 5, 4, 3, 2, 9, 8, 7, 6, 5, 4, 3, 2]

/-- `calculate_check_digit`: weighted digit sum over `zip(cnpj_partial, weights)`,
reduced mod 11; a remainder below 2 gives 0, otherwise `11 - remainder`. -/
def calculateCheckDigit (ds ws : List Nat) : Nat :=
  let total := ((ds.zip ws).foldl (fun acc p => acc + p.1 * p.2) 0)
  let r := total % 11
  if r < 2 then 0 else 11 - r

/-- `validate_cnpj` from `src/shared/utils.py`, translated clause by clause:
empty input is rejected, then the stripped digit string must have exactly 14
digits, must not be 14 copies of its first digit, and digits 13 and 14 must
equal the two computed check digits. -/
def validate_cnpj (s : String) : Bool :=
  if s.isEmpty then false
  else
    let ds := cnpjDigits s
    if ds.length ≠ 14 then false
    else if ds = List.replicate 14 (ds.headD 0) then false
    else
      let first := calculateCheckDigit (ds.take 12) weightsFirst
      if ds.getD 12 0 ≠ first then false
      else decide (ds.getD 13 0 = calculateCheckDigit (ds.take 13) weightsSecond)

/-- Check-digit computation written the way the specification describes it:
the weighted digit sum (`zipWith` product, summed) modulo 11, mapped by
`remainder < 2 → 0`, otherwise `11 - remainder`.  Used only to compare the
source function against the specification's words. -/
def specCheckDigit (ds ws : List Nat) : Nat :=
  let r := (List.zipWith (· * ·) ds ws).sum % 11
  if r < 2 then 0 else 11 - r

/-- The acceptance condition exactly as the specification sentence states it:
after stripping non-digits there are exactly 14 digits, the 14 digits are not
all identical, and each of the two check digits equals the mapped weighted sum
over the given weight vectors for the 12- and 13-digit prefixes. -/
def ValidCNPJSpec (s : String) : Prop :=
  (cnpjDigits s).length = 14 ∧
  (¬ ∀ x ∈ cnpjDigits s, x = (cnpjDigits s).headD 0) ∧
  (cnpjDigits s).getD 12 0 = specCheckDigit ((cnpjDigits s).take 12) weightsFirst ∧
  (cnpjDigits s).getD 13 0 = specCheckDigit ((cnpjDigits s).take 13) weightsSecond

/-! ## Place-discovery engine (`GMapsScrapper`, `src/models/scrappers/gmaps_scrapper.py`)

The engine is a pure function of its environment: for each search term the
environment provides the sequence of text-search page outcomes and the sequence
of detail-call outcomes.  Coordinates are modelled as rationals.  The code's
proximity test `_calculate_distance(new_lat, new_lng, old_lat, old_lng) <= 50`
(a float haversine computation) is abstracted as a Boolean parameter `near`,
with `near (new_lat, new_lng) (old_lat, old_lng)` standing for the test's
outcome; the real-valued haversine formula itself is embedded further below as
`haversineDist`. -/

/-- `TEXT_SEARCH_QUOTA_COST` from the source. -/
def TEXT_SEARCH_QUOTA_COST : ℕ := 32

/-- `PLACE_DETAILS_QUOTA_COST` from the source. -/
def PLACE_DETAILS_QUOTA_COST : ℕ := 17

/-- A place record in the legacy format, restricted to the fields the claims
touch.  `geo = some (lat?, lng?)` models presence of the `geometry` key (the
conversion from the new API format stores `location.get('latitude')` and
`location.get('longitude')`, each possibly absent). -/
structure GPlace where
  pid : Option String
  geo : Option (Option ℚ × Option ℚ)
  deriving Repr, DecidableEq

/-- `location.get('lat')` on the legacy record: present iff the `geometry` key
exists and holds a latitude. -/
def GPlace.rlat (p : GPlace) : Option ℚ := p.geo.bind Prod.fst

/-- `location.get('lng')` on the legacy record. -/
def GPlace.rlng (p : GPlace) : Option ℚ := p.geo.bind Prod.snd

/-- The dict merge `{**result, **detailed_info}` restricted to the modelled
keys: a key present in the detail record overrides the search result's. -/
def mergePlace (r d : GPlace) : GPlace :=
  { pid := d.pid.orElse (fun _ => r.pid), geo := d.geo.orElse (fun _ => r.geo) }

/-- The closed status taxonomy used by the place-discovery engine. -/
inductive GStatus
  | in_progress
  | completed
  | completed_no_results
  | partial_quota_exceeded
  | failed_no_search_terms
  | failed_api_error
  | failed_database_error
  deriving Repr, DecidableEq

/-- The mutable run state of `GMapsScrapper`: the quota ledger
(`quota_used` against `daily_quota_limit`), the `ensamble` status, statistics
counters, the accepted-places list, and the `seen_place_ids` set (as a list). -/
structure GState where
  limit : ℕ
  quotaUsed : ℕ
  status : GStatus
  reason : String
  textSearches : ℕ
  detailsFetched : ℕ
  dupById : ℕ
  dupByLoc : ℕ
  places : List GPlace
  seen : List String
  deriving Repr, DecidableEq

/-- The state right after `__init__`. -/
def initG (limit : ℕ) : GState :=
  { limit := limit, quotaUsed := 0, status := .in_progress, reason := ""
    textSearches := 0, detailsFetched := 0, dupById := 0, dupByLoc := 0
    places := [], seen := [] }

/-- The failing branch of `_check_quota`: status becomes
`partial_quota_exceeded` with the quota reason. -/
def quotaExceededSt (st : GState) : GState :=
  { st with status := .partial_quota_exceeded
            reason := "API quota limit reached at " ++ toString st.quotaUsed
              ++ " units out of " ++ toString st.limit }

/-- Outcome of one text-search page request: an exception (`isReq = true` for a
`requests.RequestException`, which sets `failed_api_error`; `false` for any
other exception, which just breaks the loop), or a parsed page with its list of
converted places and whether a `nextPageToken` was returned. -/
inductive PageResp
  | exn : Bool → PageResp
  | ok : List GPlace → Bool → PageResp
  deriving Repr, DecidableEq

/-- Quota/stats update after a successful text-search page. -/
def bumpSearch (st : GState) : GState :=
  { st with quotaUsed := st.quotaUsed + TEXT_SEARCH_QUOTA_COST
            textSearches := st.textSearches + 1 }

/-- The `while True` pagination loop of `_search_places_text_search`:
check quota, issue the request, account the cost, accumulate results, stop on
missing next-page token, empty page, exception, or quota refusal. -/
def searchLoop : List PageResp → GState → List GPlace → List GPlace × GState
  | pages, st, acc =>
    if st.quotaUsed + TEXT_SEARCH_QUOTA_COST > st.limit then
      (acc, quotaExceededSt st)
    else
      match pages with
      | [] => (acc, st)
      | PageResp.exn isReq :: _ =>
          (acc,
            if isReq then
              { st with status := .failed_api_error
                        reason := "Text search API request failed" }
            else st)
      | PageResp.ok pls tok :: rest =>
          let st1 := bumpSearch st
          if pls.isEmpty then (acc, st1)
          else if tok then searchLoop rest st1 (acc ++ pls)
          else (acc ++ pls, st1)

/-- `_get_place_details`: gated by `_check_quota` (cost 17); when the call is
made, the next environment outcome is consumed (`none` models a request or
parse error, returning `None` without quota accounting). -/
def getPlaceDetails (dets : List (Option GPlace)) (st : GState) :
    Option GPlace × GState × List (Option GPlace) :=
  if st.quotaUsed + PLACE_DETAILS_QUOTA_COST > st.limit then
    (none, quotaExceededSt st, dets)
  else
    match dets with
    | [] => (none, st, [])
    | none :: rest => (none, st, rest)
    | some d :: rest =>
        (some d,
         { st with quotaUsed := st.quotaUsed + PLACE_DETAILS_QUOTA_COST
                   detailsFetched := st.detailsFetched + 1 },
         rest)

/-- `_is_duplicate_location`: scan every already-accepted place; entries whose
stored latitude or longitude is absent are skipped; otherwise apply the
proximity test to (new, existing). -/
def isDuplicateLocation (near : ℚ × ℚ → ℚ × ℚ → Bool)
    (c : ℚ × ℚ) (existing : List GPlace) : Bool :=
  existing.any (fun p =>
    match p.rlat, p.rlng with
    | some la, some lb => near c (la, lb)
    | _, _ => false)

/-- The accept path of the result loop in `collect_data`: mark the identifier
as seen, optionally enrich via a detail call, and append the merged record.
This path never consults the proximity test. -/
def acceptStep (p : String) (r : GPlace) (dets : List (Option GPlace))
    (st : GState) : GState × List (Option GPlace) :=
  let st1 := { st with seen := p :: st.seen }
  let out := getPlaceDetails dets st1
  match out.1 with
  | some d => ({ out.2.1 with places := out.2.1.places ++ [mergePlace r d] }, out.2.2)
  | none => ({ out.2.1 with places := out.2.1.places ++ [r] }, out.2.2)

/-- The per-result loop of `collect_data`: skip records without an id, count
and skip id-duplicates (no detail fetch), count and skip location-duplicates
when both coordinates are present and the proximity test fires, otherwise
accept. -/
def processResults (near : ℚ × ℚ → ℚ × ℚ → Bool) :
    List GPlace → List (Option GPlace) → GState → GState × List (Option GPlace)
  | [], dets, st => (st, dets)
  | r :: rest, dets, st =>
      match r.pid with
      | none => processResults near rest dets st
      | some p =>
          if p ∈ st.seen then
            processResults near rest dets { st with dupById := st.dupById + 1 }
          else
            match r.rlat, r.rlng with
            | some la, some lb =>
                if isDuplicateLocation near (la, lb) st.places then
                  processResults near rest dets { st with dupByLoc := st.dupByLoc + 1 }
                else
                  processResults near rest (acceptStep p r dets st).2
                    (acceptStep p r dets st).1
            | _, _ =>
                processResults near rest (acceptStep p r dets st).2
                  (acceptStep p r dets st).1

/-- The environment of one search term: the page outcomes of its text search
and the detail-call outcomes consumed by its accepted candidates. -/
def TermEnv := List PageResp × List (Option GPlace)

/-- Processing of one search term inside `collect_data`: paginated text search,
then the per-result loop. -/
def processTerm (near : ℚ × ℚ → ℚ × ℚ → Bool) (t : TermEnv) (st : GState) :
    GState :=
  let out := searchLoop t.1 st []
  (processResults near out.1 t.2 out.2).1

/-- The search-term loop of `collect_data`: after each term the loop breaks if
the status has become `partial_quota_exceeded`. -/
def termsLoop (near : ℚ × ℚ → ℚ × ℚ → Bool) :
    List TermEnv → GState → GState
  | [], st => st
  | t :: ts, st =>
      let st1 := processTerm near t st
      if st1.status = .partial_quota_exceeded then st1 else termsLoop near ts st1

/-- Outcome of `_save_to_database` as the claims need it: a clean save, a
missing database handler (returns `False`, status untouched), or an exception
in the outer `try` (status becomes `failed_database_error`). -/
inductive DbResult
  | savedOk
  | noHandler
  | dbError
  deriving Repr, DecidableEq

/-- `_save_to_database`, coarsely: only the success flag and the status
transition are modelled (the per-place new/updated/skipped counters are not
needed by any claim). -/
def saveToDatabase (db : DbResult) (st : GState) : Bool × GState :=
  match db with
  | .savedOk => (true, st)
  | .noHandler => (false, st)
  | .dbError =>
      (false, { st with status := .failed_database_error
                        reason := "Database save failed" })

/-- `GMapsScrapper.collect_data`: fail without search terms, run the term
loop, then classify: `completed_no_results` when nothing was collected, or save
and promote `in_progress` to `completed`. -/
def gmapsCollect (near : ℚ × ℚ → ℚ × ℚ → Bool) (terms : List TermEnv)
    (db : DbResult) (limit : ℕ) : GState :=
  if terms.isEmpty then
    { initG limit with status := .failed_no_search_terms
                       reason := "No search terms configured for niche" }
  else
    let st := termsLoop near terms (initG limit)
    if st.places.isEmpty then
      if st.status = .in_progress then
        { st with status := .completed_no_results
                  reason := "No places found for search terms" }
      else st
    else
      let out := saveToDatabase db st
      if out.1 ∧ out.2.status = .in_progress then
        { out.2 with status := .completed
                     reason := "Collection completed successfully" }
      else out.2

/-! ### C1: the quota ledger -/

/-- The quota-ledger invariant: the configured limit is untouched, the ledger
equals `32 × text_searches + 17 × details_fetched`, and it never exceeds the
limit. -/
def QuotaInv (L : ℕ) (st : GState) : Prop :=
  st.limit = L ∧
  st.quotaUsed = TEXT_SEARCH_QUOTA_COST * st.textSearches
      + PLACE_DETAILS_QUOTA_COST * st.detailsFetched ∧
  st.quotaUsed ≤ L

/-! ### C2: pairwise location separation of the accepted places -/

/-- Pairwise separation: for any two distinct accepted places `pp` (earlier)
and `qq` (later) that both carry coordinates, the proximity test
`near (later) (earlier)` — the very comparison `collect_data` performs before
accepting the later one — is false. -/
def LocSeparated (near : ℚ × ℚ → ℚ × ℚ → Bool) (l : List GPlace) : Prop :=
  l.Pairwise (fun pp qq => ∀ pa pb qa qb,
    pp.rlat = some pa → pp.rlng = some pb →
    qq.rlat = some qa → qq.rlng = some qb → near (qa, qb) (pa, pb) = false)

/-- Environment hypothesis under which the source's dict merge cannot move an
accepted candidate's coordinates: every successful detail response carries no
`geometry` key.  (Without it the claim fails — see the counterexample.) -/
def DetailsNoGeo (dets : List (Option GPlace)) : Prop :=
  ∀ d ∈ dets, ∀ dp, d = some dp → dp.geo = none

/-! ### `_calculate_distance`: the haversine formula, over the reals

The Python code computes the great-circle distance with `math` floating-point
trigonometry; we embed the formula over `ℝ`.  `nearHav` below is the proximity
test the engine actually runs
(`_calculate_distance(new, existing) <= DUPLICATE_DISTANCE_THRESHOLD_METERS`),
so instantiating the abstract `near` parameter with `nearHav` gives the
engine as the source defines it. -/

/-- `math.radians`: degrees to radians. -/
noncomputable def deg2rad (x : ℚ) : ℝ := (x : ℝ) * Real.pi / 180

/-- `math.atan2 y x`, the two-argument arctangent, by its standard piecewise
definition (the code only ever calls it on non-negative arguments). -/
noncomputable def atan2 (y x : ℝ) : ℝ :=
  if 0 < x then Real.arctan (y / x)
  else if x < 0 then
    (if 0 ≤ y then Real.arctan (y / x) + Real.pi
     else Real.arctan (y / x) - Real.pi)
  else
    (if 0 < y then Real.pi / 2 else if y < 0 then -(Real.pi / 2) else 0)

/-- `_calculate_distance(lat1, lng1, lat2, lng2)`: haversine with Earth radius
`R = 6371000` meters, `a = sin²(Δφ/2) + cos φ₁ · cos φ₂ · sin²(Δλ/2)`,
`c = 2 · atan2(√a, √(1−a))`, distance `R · c`. -/
noncomputable def haversineDist (lat1 lng1 lat2 lng2 : ℚ) : ℝ :=
  6371000 * (2 * atan2
    (Real.sqrt (Real.sin (deg2rad (lat2 - lat1) / 2) ^ 2
      + Real.cos (deg2rad lat1) * Real.cos (deg2rad lat2)
        * Real.sin (deg2rad (lng2 - lng1) / 2) ^ 2))
    (Real.sqrt (1 - (Real.sin (deg2rad (lat2 - lat1) / 2) ^ 2
      + Real.cos (deg2rad lat1) * Real.cos (deg2rad lat2)
        * Real.sin (deg2rad (lng2 - lng1) / 2) ^ 2))))

/-- The proximity test the engine runs:
`_calculate_distance(new_lat, new_lng, existing_lat, existing_lng)
  <= DUPLICATE_DISTANCE_THRESHOLD_METERS` (50). -/
noncomputable def nearHav (c1 c2 : ℚ × ℚ) : Bool :=
  @decide (haversineDist c1.1 c1.2 c2.1 c2.2 ≤ 50) (Classical.propDecidable _)

/-! ## Registry-lookup engine (`CompanyFederalScrapper`,
`src/models/scrappers/company_federal_scrapper.py`)

`_fetch_opencnpj_data` runs `for attempt in range(1, MAX_RETRIES + 2)` —
attempts 1, 2, 3 — sleeping `2 ** (attempt - 1)` seconds before every attempt
after the first (the recorded `backoffs`; the fixed 0.1 s rate-limit delay
before the first attempt is not a retry backoff and is not recorded).  Each
attempt consumes the next `FetchResp` from the environment. -/

/-- `MAX_RETRIES` from the source. -/
def MAX_RETRIES : ℕ := 2

/-- Outcome of one HTTP attempt against the registry API: a response with
status code and parsed body, one of the three `requests` timeout exception
classes, another `requests.RequestException`, or any other exception. -/
inductive FetchResp
  | http : ℕ → String → FetchResp
  | connectTimeout
  | readTimeout
  | timeout
  | requestError : String → FetchResp
  | otherError : String → FetchResp
  deriving Repr, DecidableEq

/-- Status taxonomy of the registry engine. -/
inductive FStatus
  | in_progress
  | completed
  | failed
  deriving Repr, DecidableEq

/-- The registry engine `ensamble`: status, reason, `data_fetched`. -/
structure FedState where
  status : FStatus
  reason : String
  dataFetched : Bool
  deriving Repr, DecidableEq

/-- The `ensamble` right after `__init__`. -/
def initFed : FedState := ⟨.in_progress, "", false⟩

/-- The retry loop of `_fetch_opencnpj_data`.  Returns the fetched payload (if
any), the updated state, the backoff sleeps performed, and the unconsumed
environment.  The `attempt > MAX_RETRIES + 1` guard models the loop bound
(source lines 217–223, unreachable from attempt 1 because attempt 3 never
issues a `continue`). -/
def fetchGo : List FetchResp → ℕ → FedState → List ℕ →
    Option String × FedState × List ℕ × List FetchResp
  | rs, attempt, st, backoffs =>
    if attempt > MAX_RETRIES + 1 then
      (none, { st with status := .failed
                       reason := "API request failed - max retries exceeded" },
       backoffs, rs)
    else
      match rs with
      | [] => (none, st, backoffs, [])
      | r :: rest =>
        let backoffs := if attempt > 1 then backoffs ++ [2 ^ (attempt - 1)]
          else backoffs
        match r with
        | .http code body =>
          if code = 200 then (some body, st, backoffs, rest)
          else if code = 404 then
            (none, { st with status := .completed
                             reason := "CNPJ not found in federal registry" },
             backoffs, rest)
          else if code = 429 then
            if attempt ≤ MAX_RETRIES then fetchGo rest (attempt + 1) st backoffs
            else
              (none, { st with status := .failed
                               reason := "API rate limit exceeded" },
               backoffs, rest)
          else
            (none, { st with status := .failed
                             reason := "API error: HTTP " ++ toString code },
             backoffs, rest)
        | .connectTimeout =>
          if attempt > MAX_RETRIES then
            (none, { st with status := .failed
                             reason := "API connection timeout (after "
                               ++ toString attempt ++ " attempts)" },
             backoffs, rest)
          else fetchGo rest (attempt + 1) st backoffs
        | .readTimeout =>
          if attempt > MAX_RETRIES then
            (none, { st with status := .failed
                             reason := "API read timeout (after "
                               ++ toString attempt ++ " attempts)" },
             backoffs, rest)
          else fetchGo rest (attempt + 1) st backoffs
        | .timeout =>
          if attempt > MAX_RETRIES then
            (none, { st with status := .failed
                             reason := "API request timeout (after "
                               ++ toString attempt ++ " attempts)" },
             backoffs, rest)
          else fetchGo rest (attempt + 1) st backoffs
        | .requestError e =>
            (none, { st with status := .failed
                             reason := "API request failed: " ++ e },
             backoffs, rest)
        | .otherError e =>
            (none, { st with status := .failed
                             reason := "Unexpected error: " ++ e },
             backoffs, rest)

/-- A persisted update of the company record: the `federal_data` payload
(`none` models the empty dict `{}`) together with the status and reason at
save time. -/
abbrev SaveRec := Option String × FStatus × String

/-- `_save_to_database` of the registry engine: on success the update (payload,
status, reason) is recorded; a missing handler returns `False`; an exception
sets `failed`. -/
def fedSave (db : DbResult) (payload : Option String) (st : FedState)
    (saves : List SaveRec) : Bool × FedState × List SaveRec :=
  match db with
  | .savedOk => (true, st, saves ++ [(payload, st.status, st.reason)])
  | .noHandler => (false, st, saves)
  | .dbError =>
      (false, { st with status := .failed, reason := "Database save failed" },
       saves)

/-- A Python exception value, as far as the engines' handlers distinguish
them. -/
inductive PyExc
  | valueError : String → PyExc
  | typeError : String → PyExc
  deriving Repr, DecidableEq

/-- The observable outcome of one registry-engine run: final `ensamble`,
backoff sleeps, and persisted updates. -/
structure FedOut where
  st : FedState
  backoffs : List ℕ
  saves : List SaveRec
  deriving DecidableEq

/-- The body of `CompanyFederalScrapper.collect_data` inside its `try`: raise
`ValueError` for a CNPJ that is not exactly 14 characters, else fetch with
retries; a fetched payload flips `data_fetched` and `completed` before the
save, otherwise the fetch loop already classified the state and `{}` is
saved. -/
def fedBody (cnpj : String) (rs : List FetchResp) (db : DbResult) :
    Except PyExc FedOut :=
  if cnpj.length ≠ 14 then
    .error (.valueError ("Invalid CNPJ format: " ++ cnpj))
  else
    let out := fetchGo rs 1 initFed []
    match out.1 with
    | some body =>
        let st1 : FedState := { status := .completed
                                reason := "Successfully fetched federal data"
                                dataFetched := true }
        let sv := fedSave db (some body) st1 []
        .ok ⟨sv.2.1, out.2.2.1, sv.2.2⟩
    | none =>
        let sv := fedSave db none out.2.1 []
        .ok ⟨sv.2.1, out.2.2.1, sv.2.2⟩

/-- `CompanyFederalScrapper.collect_data`: the body wrapped in the top-level
`except ValueError` / `except Exception` handlers, which classify the run as
`failed` and still persist the outcome. -/
def fedCollect (cnpj : String) (rs : List FetchResp) (db : DbResult) : FedOut :=
  match fedBody cnpj rs db with
  | .ok out => out
  | .error (.valueError m) =>
      let sv := fedSave db none ⟨.failed, "Invalid CNPJ: " ++ m, false⟩ []
      ⟨sv.2.1, [], sv.2.2⟩
  | .error (.typeError m) =>
      let sv := fedSave db none ⟨.failed, "Collection error: " ++ m, false⟩ []
      ⟨sv.2.1, [], sv.2.2⟩

/-! ## Website-enrichment engine (`WebsiteScrapper`,
`src/models/scrappers/website_scrapper.py`)

The engine is a pure function of a `WEnv` environment.  Every call of
`_fetch_page_content` — the homepage fetch of the navigation strategy, the
candidate-validation fetches of `_discover_pages`, and the final fetch loop of
`collect_data` — consumes the next outcome from `WEnv.fetches` and updates the
`pages_fetched` / `pages_failed` counters, exactly as the method does.  The
sitemap strategy issues its own raw requests without touching those counters,
so its result is a plain environment value.  Python iterates the candidate
*set* in unspecified order; `candOrder` is that iteration order, related to
the three strategies' results by hypotheses where a claim needs it. -/

/-- `MAX_PAGES_PER_SITE` from the source. -/
def MAX_PAGES_PER_SITE : ℕ := 15

/-- A JSON value of an extracted field, as far as the engine inspects it. -/
inductive JVal
  | str : String → JVal
  | num : ℚ → JVal
  | jnull
  deriving Repr, DecidableEq

/-- Python truthiness of an extracted value. -/
def JVal.truthy : JVal → Bool
  | .str s => !s.isEmpty
  | .num q => decide (q ≠ 0)
  | .jnull => false

/-- The website-engine status values the claims touch; `incomplete` models
the source's string `'partial'` (which is a reserved word here). -/
inductive WStatus
  | in_progress
  | completed
  | incomplete
  | failed
  deriving Repr, DecidableEq

/-- A persisted company update of the website engine: the `website_data`
payload and the status/reason at save time. -/
abbrev WSaveRec := List (String × JVal) × WStatus × String

/-- The website engine `ensamble` plus the persisted updates and queued
federal-lookup tasks. -/
structure WState where
  status : WStatus
  reason : String
  pagesFetched : ℕ
  pagesFailed : ℕ
  saves : List WSaveRec
  queued : List String
  deriving Repr, DecidableEq

/-- The `ensamble` right after `__init__`. -/
def initW : WState := ⟨.in_progress, "", 0, 0, [], []⟩

/-- The environment of one website-enrichment run. -/
structure WEnv where
  robots : Except String Bool
  navLinks : List String
  sitemapLinks : List String
  commonPaths : List String
  candOrder : List String
  fetches : List (Option String)
  extracted : List (String × JVal)
  db : DbResult

/-- `_check_robots_txt`: reading `robots.txt` may fail (`.error`), in which
case the engine proceeds (fail-open); otherwise the parser's
`can_fetch(USER_AGENT, base_url)` answer is returned. -/
def checkRobots : Except String Bool → Bool
  | .error _ => true
  | .ok b => b

/-- `_fetch_page_content`: consume the next outcome; a 200 response returns
the text and bumps `pages_fetched`, anything else returns `None` and bumps
`pages_failed`. -/
def fetchPage (st : WState) (fs : List (Option String)) :
    Option String × WState × List (Option String) :=
  match fs with
  | [] => (none, { st with pagesFailed := st.pagesFailed + 1 }, [])
  | f :: rest =>
    match f with
    | some html => (some html, { st with pagesFetched := st.pagesFetched + 1 }, rest)
    | none => (none, { st with pagesFailed := st.pagesFailed + 1 }, rest)

/-- The navigation-strategy result: the parsed same-domain links when the
homepage fetch succeeds, nothing otherwise. -/
def homepageLinks (env : WEnv) : List String :=
  match env.fetches with
  | some _ :: _ => env.navLinks
  | _ => []

/-- Step 2 of `_discover_pages`: fetch every candidate URL in order, keep the
reachable ones with their content length, drop the rest.  (`len(html_content)`
counts characters of the decoded text; for single-byte content this is the
byte count the specification speaks of.) -/
def validateCands : List String → WState → List (Option String) →
    List (String × ℕ) × WState × List (Option String)
  | [], st, fs => ([], st, fs)
  | u :: us, st, fs =>
      let out := fetchPage st fs
      match out.1 with
      | some html =>
          let r := validateCands us out.2.1 out.2.2
          ((u, html.length) :: r.1, r.2.1, r.2.2)
      | none => validateCands us out.2.1 out.2.2

/-- `valid_pages.sort(key=lambda x: x[1], reverse=True)`: a stable sort by
content size, descending (Python's `list.sort` is stable; any stable sort
under the same order yields the same list). -/
def sortDesc (l : List (String × ℕ)) : List (String × ℕ) :=
  l.insertionSort (fun a b => b.2 ≤ a.2)

/-- `_discover_pages`: fetch the homepage for the navigation strategy, fetch
and measure every candidate, rank by size descending, select the top
`MAX_PAGES_PER_SITE`. -/
def discoverPages (env : WEnv) (st : WState) :
    List String × WState × List (Option String) :=
  let h := fetchPage st env.fetches
  let v := validateCands env.candOrder h.2.1 h.2.2
  (((sortDesc v.1).take MAX_PAGES_PER_SITE).map Prod.fst, v.2.1, v.2.2)

/-- The final fetch loop of `collect_data`: fetch each selected page, keeping
the successful `(url, html)` pairs as `pages_content`. -/
def fetchSelected : List String → WState → List (Option String) →
    List (String × String) × WState × List (Option String)
  | [], st, fs => ([], st, fs)
  | u :: us, st, fs =>
      let out := fetchPage st fs
      match out.1 with
      | some html =>
          let r := fetchSelected us out.2.1 out.2.2
          ((u, html) :: r.1, r.2.1, r.2.2)
      | none => fetchSelected us out.2.1 out.2.2

/-- `_save_to_database` of the website engine. -/
def wSave (db : DbResult) (payload : List (String × JVal)) (st : WState) :
    Bool × WState :=
  match db with
  | .savedOk =>
      (true, { st with saves := st.saves ++ [(payload, st.status, st.reason)] })
  | .noHandler => (false, st)
  | .dbError =>
      (false, { st with status := .failed, reason := "Database save failed" })

/-- `clean_cnpj` from `src/shared/utils.py`: digits only, `none` unless
exactly 14 remain. -/
def clean_cnpj (s : String) : Option String :=
  if s.isEmpty then none
  else
    let ds := s.toList.filter Char.isDigit
    if ds.length = 14 then some (String.mk ds) else none

/-- `website_data.get('cnpj')`. -/
def lookupKey (l : List (String × JVal)) (k : String) : Option JVal :=
  (l.find? (fun kv => kv.1 == k)).map Prod.snd

/-- The discovery stage of a run that passed the robots gate. -/
def wAfterDiscovery (env : WEnv) :
    List String × WState × List (Option String) :=
  discoverPages env initW

/-- The page-content stage: the selected pages fetched again. -/
def wAfterContent (env : WEnv) :
    List (String × String) × WState × List (Option String) :=
  let d := wAfterDiscovery env
  fetchSelected d.1 d.2.1 d.2.2

/-- The follow-on registry-task step at the end of `collect_data`: when the
extracted payload is non-empty and carries a truthy `cnpj` value, clean and
validate it, queueing a federal-lookup task only on success; `clean_cnpj`
(a `re.sub` call) raises `TypeError` when the value is not a string. -/
def cnpjStep (data : List (String × JVal)) (st3 : WState) :
    Except (PyExc × WState) WState :=
  if !data.isEmpty then
    match lookupKey data "cnpj" with
    | some jv =>
      if jv.truthy then
        match jv with
        | .str s =>
            match clean_cnpj s with
            | some c =>
                .ok (if validate_cnpj c
                  then { st3 with queued := st3.queued ++ [c] } else st3)
            | none => .ok st3
        | _ => .error (.typeError "expected string or bytes-like object", st3)
      else .ok st3
    | none => .ok st3
  else .ok st3

/-- The body of `WebsiteScrapper.collect_data` inside its `try`: robots gate,
discovery, fetch, status classification, save, then the follow-on
registry-task step, whose `clean_cnpj` call raises `TypeError` when the
extracted value is truthy but not a string.  An error carries the `ensamble`
as it stood when the exception was raised. -/
def wBody (env : WEnv) : Except (PyExc × WState) WState :=
  if checkRobots env.robots = false then
    .ok (wSave env.db [] { initW with
          status := .completed
          reason := "Scraping disallowed by robots.txt" }).2
  else
    let d := wAfterDiscovery env
    let f := fetchSelected d.1 d.2.1 d.2.2
    let st1 := f.2.1
    if f.1.isEmpty then
      .ok (wSave env.db [] { st1 with
            status := .incomplete
            reason := "Failed to fetch any pages (tried "
              ++ toString d.1.length ++ ")" }).2
    else
      let data := env.extracted
      let st2 :=
        if !data.isEmpty then
          if st1.pagesFailed > 0 then
            { st1 with status := .incomplete,
                       reason := "Data extracted from "
                         ++ toString st1.pagesFetched ++ " pages, "
                         ++ toString st1.pagesFailed ++ " pages failed" }
          else
            { st1 with status := .completed,
                       reason := "Successfully scraped "
                         ++ toString st1.pagesFetched ++ " pages" }
        else
          { st1 with status := .failed,
                     reason := "Failed to extract structured data from pages" }
      let st3 := (wSave env.db data st2).2
      cnpjStep data st3

/-- `WebsiteScrapper.collect_data`: the body wrapped in the top-level
`except ValueError` / `except Exception` handlers, which set `failed` on the
current `ensamble` and still persist it. -/
def wCollect (env : WEnv) : WState :=
  match wBody env with
  | .ok st => st
  | .error (.valueError m, stE) =>
      (wSave env.db [] { stE with
        status := .failed
        reason := "Invalid URL: " ++ m }).2
  | .error (.typeError m, stE) =>
      (wSave env.db [] { stE with
        status := .failed
        reason := "Scraping error: " ++ m }).2

/-- The extracted `cnpj` entry, when present and truthy, is a string — i.e.
the payload conforms to the ExtractionResult data model (all fields typed,
registry ID a nullable string), under which the follow-on step cannot raise
`TypeError`. -/
def CnpjSafe (data : List (String × JVal)) : Prop :=
  ∀ jv, lookupKey data "cnpj" = some jv → jv.truthy = true → ∃ s, jv = JVal.str s

/-- Content string of a given byte length, for the concrete ranking example. -/
def pageOfSize (n : ℕ) : String := String.mk (List.replicate n 'a')

/-- The environment of the concrete ranking example: four candidate pages of
500, 3000, 100 and 8000 bytes (the homepage fetch itself fails). -/
def c7Env : WEnv :=
  { robots := Except.ok true
    navLinks := []
    sitemapLinks := []
    commonPaths := []
    candOrder := ["u1", "u2", "u3", "u4"]
    fetches := [none, some (pageOfSize 500), some (pageOfSize 3000),
                some (pageOfSize 100), some (pageOfSize 8000)]
    extracted := []
    db := DbResult.savedOk }

/-! ### C9: top-level exception handling of the three `collect_data` methods

`WebsiteScrapper.collect_data` and `CompanyFederalScrapper.collect_data` wrap
their whole body in `try`/`except` and persist a `failed` outcome on any
exception; `GMapsScrapper.collect_data` (source lines 691–813) has no such
handler.  To witness an exception that actually escapes it, the gmaps result
loop is re-embedded below under dynamic typing: the legacy conversion stores
`location.get('latitude')` verbatim, so a coordinate can be any JSON value,
and `math.radians` inside `_calculate_distance` raises `TypeError` on a
non-number — with no `except` on the path up through `collect_data`. -/

/-- A converted search result as the gmaps result loop actually receives it:
coordinates are arbitrary JSON values (absent, number, string, null). -/
structure GPlaceJ where
  pid : Option String
  lat : Option JVal
  lng : Option JVal
  deriving Repr, DecidableEq

/-- `math.radians(x)`: succeeds on a number, raises `TypeError` otherwise. -/
def radiansJ : JVal → Except PyExc ℚ
  | .num q => .ok q
  | .str _ => .error (.typeError "must be real number, not str")
  | .jnull => .error (.typeError "must be real number, not NoneType")

/-- `_calculate_distance` under dynamic typing, its threshold comparison
abstracted as `near` (as in the rational model): `math.radians` hits the two
latitudes first, then the longitudes, mirroring the statement order of the
source. -/
def calcDistJ (near : ℚ × ℚ → ℚ × ℚ → Bool) (lat1 lng1 lat2 lng2 : JVal) :
    Except PyExc Bool := do
  let a ← radiansJ lat1
  let c ← radiansJ lat2
  let b ← radiansJ lng1
  let d ← radiansJ lng2
  return near (a, b) (c, d)

/-- `_is_duplicate_location` under dynamic typing: stored places whose
latitude or longitude is `None` are skipped; any other stored value reaches
the distance computation. -/
def isDupLocJ (near : ℚ × ℚ → ℚ × ℚ → Bool) (nlat nlng : JVal) :
    List GPlaceJ → Except PyExc Bool
  | [] => .ok false
  | p :: rest =>
    match p.lat, p.lng with
    | some elat, some elng =>
      match calcDistJ near nlat nlng elat elng with
      | .error e => .error e
      | .ok true => .ok true
      | .ok false => isDupLocJ near nlat nlng rest
    | _, _ => isDupLocJ near nlat nlng rest

/-- The run state of the dynamically-typed gmaps result loop. -/
structure GStateJ where
  places : List GPlaceJ
  seen : List String
  dupById : ℕ
  dupByLoc : ℕ
  deriving Repr, DecidableEq

/-- The per-result loop of `GMapsScrapper.collect_data` under dynamic typing
(the optional detail enrichment is supplied as unavailable, which the engine
tolerates); an exception raised by the duplicate check propagates. -/
def processResultsJ (near : ℚ × ℚ → ℚ × ℚ → Bool) :
    List GPlaceJ → GStateJ → Except PyExc GStateJ
  | [], st => .ok st
  | r :: rest, st =>
    match r.pid with
    | none => processResultsJ near rest st
    | some p =>
      if p ∈ st.seen then
        processResultsJ near rest { st with dupById := st.dupById + 1 }
      else
        match r.lat, r.lng with
        | some la, some lb =>
          match isDupLocJ near la lb st.places with
          | .error e => .error e
          | .ok true =>
            processResultsJ near rest { st with dupByLoc := st.dupByLoc + 1 }
          | .ok false =>
            processResultsJ near rest
              { st with seen := p :: st.seen, places := st.places ++ [r] }
        | _, _ =>
          processResultsJ near rest
            { st with seen := p :: st.seen, places := st.places ++ [r] }

/-- `GMapsScrapper.collect_data` around its result loop: there is no
`try`/`except` here, so the loop's exception is the method's outcome.  (The
text search catches its own exceptions, so its results enter as plain data.) -/
def gmapsCollectJ (near : ℚ × ℚ → ℚ × ℚ → Bool) (results : List GPlaceJ) :
    Except PyExc GStateJ :=
  processResultsJ near results ⟨[], [], 0, 0⟩

lemma foldl_mul_sum (ds ws : List Nat) (acc : Nat) :
    ((ds.zip ws).foldl (fun acc p => acc + p.1 * p.2) acc)
      = acc + (List.zipWith (· * ·) ds ws).sum := by
  induction ds generalizing ws acc with
  | nil => simp
  | cons d ds ih =>
    cases ws with
    | nil => simp
    | cons w ws =>
      simp only [List.zip_cons_cons, List.foldl_cons, List.zipWith_cons_cons,
        List.sum_cons]
      rw [ih]
      ring

lemma calculateCheckDigit_eq_spec (ds ws : List Nat) :
    calculateCheckDigit ds ws = specCheckDigit ds ws := by
  unfold calculateCheckDigit specCheckDigit
  rw [foldl_mul_sum]
  simp

lemma replicate_head_iff (ds : List Nat) (h : ds.length = 14) :
    ds = List.replicate 14 (ds.headD 0) ↔ ∀ x ∈ ds, x = ds.headD 0 := by
  constructor
  · intro he x hx
    rw [he] at hx
    exact List.eq_of_mem_replicate hx
  · intro hall
    apply List.ext_getElem (by simpa using h)
    intro i hi hi'
    rw [List.getElem_replicate]
    exact hall _ (List.getElem_mem _)

lemma validate_cnpj_eq_true_iff (s : String) :
    validate_cnpj s = true ↔
      ((cnpjDigits s).length = 14 ∧
       ¬ (cnpjDigits s = List.replicate 14 ((cnpjDigits s).headD 0)) ∧
       (cnpjDigits s).getD 12 0
         = calculateCheckDigit ((cnpjDigits s).take 12) weightsFirst ∧
       (cnpjDigits s).getD 13 0
         = calculateCheckDigit ((cnpjDigits s).take 13) weightsSecond) := by
  unfold validate_cnpj
  by_cases he : s.isEmpty
  · rw [String.isEmpty_iff] at he
    subst he
    simp [cnpjDigits]
  · simp only [he, Bool.false_eq_true, if_false]
    split_ifs with h14 hrep hcd1
    · simp only [Bool.false_eq_true, false_iff]
      rintro ⟨h, -⟩
      exact h14 h
    · simp only [Bool.false_eq_true, false_iff]
      rintro ⟨-, hr, -⟩
      exact hr hrep
    · simp only [Bool.false_eq_true, false_iff]
      rintro ⟨-, -, h1, -⟩
      exact hcd1 h1
    · rw [decide_eq_true_iff]
      constructor
      · intro h2
        exact ⟨not_not.mp (by simpa using h14), hrep, not_not.mp hcd1, h2⟩
      · rintro ⟨-, -, -, h2⟩
        exact h2

/-- **C3.** `validate_cnpj` accepts a string exactly when, after stripping all
non-digit characters, 14 digits remain, they are not all identical, and the
13th and 14th digits equal the two mod-11 check digits computed with the weight
vectors `[5,4,3,2,9,8,7,6,5,4,3,2]` and `[6,5,4,3,2,9,8,7,6,5,4,3,2]`.
In particular `"11.222.333/0001-81"` is valid, changing any single digit of it
(to a different digit) makes it invalid, and every string of 14 identical
digits is invalid. -/
theorem c3_validate_cnpj :
    (∀ s, validate_cnpj s = true ↔ ValidCNPJSpec s) ∧
    validate_cnpj "11.222.333/0001-81" = true ∧
    (∀ (i : Fin 18) (d : Fin 10),
      ((("11.222.333/0001-81".toList).getD i ' ').isDigit = true) →
      Char.ofNat (48 + (d : Nat)) ≠ ("11.222.333/0001-81".toList).getD i ' ' →
      validate_cnpj
        (String.mk (("11.222.333/0001-81".toList).set i (Char.ofNat (48 + (d : Nat)))))
        = false) ∧
    (∀ d : Fin 10,
      validate_cnpj (String.mk (List.replicate 14 (Char.ofNat (48 + (d : Nat)))))
        = false) := by
  refine ⟨?_, by decide, by decide, by decide⟩
  intro s
  rw [validate_cnpj_eq_true_iff]
  unfold ValidCNPJSpec
  rw [calculateCheckDigit_eq_spec, calculateCheckDigit_eq_spec]
  constructor
  · rintro ⟨h14, hrep, h1, h2⟩
    exact ⟨h14, fun hall => hrep ((replicate_head_iff _ h14).mpr hall), h1, h2⟩
  · rintro ⟨h14, hall, h1, h2⟩
    exact ⟨h14, fun hrep => hall ((replicate_head_iff _ h14).mp hrep), h1, h2⟩

/-- Witness for C3: the single-digit-change clause applied at position 0 with
replacement digit 2, and the repeated-digit clause at digit 1. -/
theorem c3_validate_cnpj_witness :
    validate_cnpj
      (String.mk (("11.222.333/0001-81".toList).set (0 : Fin 18)
        (Char.ofNat (48 + ((2 : Fin 10) : Nat))))) = false ∧
    validate_cnpj
      (String.mk (List.replicate 14 (Char.ofNat (48 + ((1 : Fin 10) : Nat))))) = false :=
  ⟨c3_validate_cnpj.2.2.1 0 2 (by decide) (by decide),
   c3_validate_cnpj.2.2.2 1⟩

lemma quotaInv_searchLoop (pages : List PageResp) (st : GState)
    (acc : List GPlace) (L : ℕ) (h : QuotaInv L st) :
    QuotaInv L (searchLoop pages st acc).2 := by
  induction pages generalizing st acc with
  | nil =>
    rw [searchLoop.eq_def]
    dsimp only
    split_ifs with hq
    · exact h
    · exact h
  | cons p rest ih =>
    rw [searchLoop.eq_def]
    dsimp only
    split_ifs with hq
    · exact h
    · obtain ⟨hL, heq, hle⟩ := h
      have hst1 : QuotaInv L (bumpSearch st) := by
        refine ⟨hL, ?_, ?_⟩
        · simp [bumpSearch, heq, TEXT_SEARCH_QUOTA_COST]
          ring
        · have := not_lt.mp hq
          simp only [bumpSearch]
          omega
      cases p with
      | exn isReq =>
        dsimp only
        split_ifs with hreq
        · exact ⟨hL, heq, hle⟩
        · exact ⟨hL, heq, hle⟩
      | ok pls tok =>
        dsimp only
        split_ifs with hemp htok
        · exact hst1
        · exact ih _ _ hst1
        · exact hst1

lemma quotaInv_getPlaceDetails (dets : List (Option GPlace)) (st : GState)
    (L : ℕ) (h : QuotaInv L st) : QuotaInv L (getPlaceDetails dets st).2.1 := by
  rw [getPlaceDetails.eq_def]
  split_ifs with hq
  · exact h
  · obtain ⟨hL, heq, hle⟩ := h
    cases dets with
    | nil => exact ⟨hL, heq, hle⟩
    | cons d rest =>
      cases d with
      | none => exact ⟨hL, heq, hle⟩
      | some dp =>
        refine ⟨hL, ?_, ?_⟩
        · simp only [heq]
          simp [TEXT_SEARCH_QUOTA_COST, PLACE_DETAILS_QUOTA_COST]
          ring
        · have := not_lt.mp hq
          simp only
          omega

lemma quotaInv_acceptStep (p : String) (r : GPlace)
    (dets : List (Option GPlace)) (st : GState) (L : ℕ) (h : QuotaInv L st) :
    QuotaInv L (acceptStep p r dets st).1 := by
  have h1 : QuotaInv L ({ st with seen := p :: st.seen }) := h
  have h2 := quotaInv_getPlaceDetails dets { st with seen := p :: st.seen } L h1
  unfold acceptStep
  cases hdet : (getPlaceDetails dets { st with seen := p :: st.seen }).1 with
  | none =>
    simp only [hdet]
    exact ⟨h2.1, h2.2.1, h2.2.2⟩
  | some d =>
    simp only [hdet]
    exact ⟨h2.1, h2.2.1, h2.2.2⟩

lemma quotaInv_processResults (near : ℚ × ℚ → ℚ × ℚ → Bool)
    (results : List GPlace) (dets : List (Option GPlace)) (st : GState)
    (L : ℕ) (h : QuotaInv L st) :
    QuotaInv L (processResults near results dets st).1 := by
  induction results generalizing dets st with
  | nil => exact h
  | cons r rest ih =>
    rw [processResults]
    cases r.pid with
    | none => exact ih _ _ h
    | some p =>
      simp only
      split_ifs with hseen
      · exact ih _ _ h
      · cases hla : r.rlat with
        | none =>
          cases hlb : r.rlng with
          | none => exact ih _ _ (quotaInv_acceptStep p r dets st L h)
          | some lb => exact ih _ _ (quotaInv_acceptStep p r dets st L h)
        | some la =>
          cases hlb : r.rlng with
          | none => exact ih _ _ (quotaInv_acceptStep p r dets st L h)
          | some lb =>
            dsimp only
            split_ifs with hdup
            · exact ih _ _ h
            · exact ih _ _ (quotaInv_acceptStep p r dets st L h)

lemma quotaInv_processTerm (near : ℚ × ℚ → ℚ × ℚ → Bool) (t : TermEnv)
    (st : GState) (L : ℕ) (h : QuotaInv L st) :
    QuotaInv L (processTerm near t st) := by
  rw [processTerm]
  exact quotaInv_processResults near _ _ _ L (quotaInv_searchLoop _ _ _ L h)

lemma quotaInv_termsLoop (near : ℚ × ℚ → ℚ × ℚ → Bool) (ts : List TermEnv)
    (st : GState) (L : ℕ) (h : QuotaInv L st) :
    QuotaInv L (termsLoop near ts st) := by
  induction ts generalizing st with
  | nil => exact h
  | cons t ts ih =>
    rw [termsLoop]
    split_ifs with hst
    · exact quotaInv_processTerm near t st L h
    · exact ih _ (quotaInv_processTerm near t st L h)

lemma quotaInv_gmapsCollect (near : ℚ × ℚ → ℚ × ℚ → Bool)
    (terms : List TermEnv) (db : DbResult) (limit : ℕ) :
    QuotaInv limit (gmapsCollect near terms db limit) := by
  have hinit : QuotaInv limit (initG limit) := ⟨rfl, rfl, Nat.zero_le _⟩
  rw [gmapsCollect]
  split_ifs with hempty
  · exact hinit
  · have hloop := quotaInv_termsLoop near terms (initG limit) limit hinit
    simp only
    split_ifs with hpl hst hsave
    · exact hloop
    · exact hloop
    · cases db <;> exact hloop
    · cases db <;> exact hloop

/-- **C1.** The quota ledger: (i) at the end of any place-discovery run the
ledger equals `32 × text_searches + 17 × details_fetched` and never exceeds
the configured daily limit; (ii) a text-search page is issued only when
`quota_used + 32 ≤ limit` — otherwise no request is made, the status becomes
`partial_quota_exceeded` and pagination stops at once; (iii) likewise a detail
call is issued only when `quota_used + 17 ≤ limit`, otherwise it is refused
with the same status and consumes nothing; (iv) once a term ends with status
`partial_quota_exceeded` the term loop processes no further term. -/
theorem c1_quota_ledger :
    (∀ near terms db limit,
      (gmapsCollect near terms db limit).quotaUsed
          = TEXT_SEARCH_QUOTA_COST * (gmapsCollect near terms db limit).textSearches
            + PLACE_DETAILS_QUOTA_COST
              * (gmapsCollect near terms db limit).detailsFetched ∧
      (gmapsCollect near terms db limit).quotaUsed ≤ limit) ∧
    (∀ pages st acc, st.quotaUsed + TEXT_SEARCH_QUOTA_COST > st.limit →
      searchLoop pages st acc = (acc, quotaExceededSt st)) ∧
    (∀ dets st, st.quotaUsed + PLACE_DETAILS_QUOTA_COST > st.limit →
      getPlaceDetails dets st = (none, quotaExceededSt st, dets)) ∧
    (∀ near t ts st,
      (processTerm near t st).status = GStatus.partial_quota_exceeded →
      termsLoop near (t :: ts) st = processTerm near t st) := by
  refine ⟨?_, ?_, ?_, ?_⟩
  · intro near terms db limit
    obtain ⟨hL, heq, hle⟩ := quotaInv_gmapsCollect near terms db limit
    exact ⟨heq, hle⟩
  · intro pages st acc hq
    cases pages with
    | nil => rw [searchLoop.eq_def]; dsimp only; rw [if_pos hq]
    | cons p rest => rw [searchLoop.eq_def]; dsimp only; rw [if_pos hq]
  · intro dets st hq
    rw [getPlaceDetails.eq_def, if_pos hq]
  · intro near t ts st hst
    rw [termsLoop]
    simp [hst]

/-- Witness for C1: the refusal clauses applied at concrete states (limit 0,
so both call costs exceed the limit), and the term-loop break applied to a
run whose first term exhausts the quota. -/
theorem c1_quota_ledger_witness :
    searchLoop [] (initG 0) [] = ([], quotaExceededSt (initG 0)) ∧
    getPlaceDetails [] (initG 0) = (none, quotaExceededSt (initG 0), []) ∧
    termsLoop (fun _ _ => false) [(([], []) : TermEnv)] (initG 0)
      = processTerm (fun _ _ => false) (([], []) : TermEnv) (initG 0) :=
  ⟨c1_quota_ledger.2.1 [] (initG 0) [] (by decide),
   c1_quota_ledger.2.2.1 [] (initG 0) (by decide),
   c1_quota_ledger.2.2.2 (fun _ _ => false) ([], []) [] (initG 0) (by decide)⟩

/-! ### C8: id-deduplication, C10: missing coordinates -/
lemma acceptStep_seen (p : String) (r : GPlace) (dets : List (Option GPlace))
    (st : GState) : ((acceptStep p r dets st).1).seen = p :: st.seen := by
  unfold acceptStep
  cases hdet : (getPlaceDetails dets { st with seen := p :: st.seen }).1 with
  | none =>
    simp only [hdet]
    have : ((getPlaceDetails dets { st with seen := p :: st.seen }).2.1).seen
        = p :: st.seen := by
      rw [getPlaceDetails.eq_def]
      split_ifs with hq
      · rfl
      · cases dets with
        | nil => rfl
        | cons d rest => cases d <;> rfl
    exact this
  | some d =>
    simp only [hdet]
    have : ((getPlaceDetails dets { st with seen := p :: st.seen }).2.1).seen
        = p :: st.seen := by
      rw [getPlaceDetails.eq_def]
      split_ifs with hq
      · rfl
      · cases dets with
        | nil => rfl
        | cons d rest => cases d <;> rfl
    exact this

/-- **C8 (amended).** Inside one run, a search result whose identifier is
already in the seen set is counted as `duplicates_by_id` and skipped entirely:
the state is otherwise untouched and the detail-call environment is not
consumed (no detail fetch happens).  Moreover an accepted candidate's
identifier is marked seen at the moment it is accepted — so repeats of an
*accepted* identifier are never accepted again.  (The original claim's
stronger reading — that only the chronologically first occurrence of an
identifier can ever be accepted — fails: see the counterexample, where the
first occurrence is discarded as a location-duplicate, which does not mark the
identifier as seen, and a later occurrence is accepted.) -/
theorem c8_seen_id_skipped :
    (∀ (near : ℚ × ℚ → ℚ × ℚ → Bool) (r : GPlace) (rest : List GPlace)
       (dets : List (Option GPlace)) (st : GState) (p : String),
      r.pid = some p → p ∈ st.seen →
      processResults near (r :: rest) dets st
        = processResults near rest dets { st with dupById := st.dupById + 1 }) ∧
    (∀ (p : String) (r : GPlace) (dets : List (Option GPlace)) (st : GState),
      ((acceptStep p r dets st).1).seen = p :: st.seen) := by
  constructor
  · intro near r rest dets st p hp hseen
    rw [processResults, hp]
    dsimp only
    rw [if_pos hseen]
  · exact acceptStep_seen

/-- Witness for C8: the skip equation applied to a concrete state whose seen
set already contains the incoming identifier. -/
theorem c8_seen_id_skipped_witness :
    processResults (fun _ _ => false) [⟨some "a", none⟩] []
        { initG 20000 with seen := ["a"] }
      = processResults (fun _ _ => false) [] []
          { { initG 20000 with seen := ["a"] } with dupById := 0 + 1 } :=
  c8_seen_id_skipped.1 (fun _ _ => false) ⟨some "a", none⟩ [] []
    { initG 20000 with seen := ["a"] } "a" rfl (by decide)

lemma isDuplicateLocation_skips_coordless (near : ℚ × ℚ → ℚ × ℚ → Bool)
    (c : ℚ × ℚ) (p : GPlace) (hp : p.rlat = none ∨ p.rlng = none)
    (pl1 pl2 : List GPlace) :
    isDuplicateLocation near c (pl1 ++ p :: pl2)
      = isDuplicateLocation near c (pl1 ++ pl2) := by
  unfold isDuplicateLocation
  rw [List.any_append, List.any_cons, List.any_append]
  have hfp : (match p.rlat, p.rlng with
      | some la, some lb => near c (la, lb)
      | _, _ => false) = false := by
    rcases hp with h | h
    · rw [h]
    · rw [h]
      cases p.rlat <;> rfl
  rw [hfp]
  simp

/-- **C10.** A search result with a missing latitude or longitude bypasses the
location-duplicate check entirely: when its identifier is new it is accepted
through `acceptStep` — a function that does not even receive the proximity
test — so it is never counted as `duplicates_by_location` (conjuncts 1 and 2);
and a stored accepted place lacking a coordinate is skipped by
`_is_duplicate_location`, so it can never cause a location-duplicate rejection
of a later candidate (conjunct 3). -/
theorem c10_coordless_bypass :
    (∀ (near : ℚ × ℚ → ℚ × ℚ → Bool) (r : GPlace) (rest : List GPlace)
       (dets : List (Option GPlace)) (st : GState) (p : String),
      r.pid = some p → p ∉ st.seen → (r.rlat = none ∨ r.rlng = none) →
      processResults near (r :: rest) dets st
        = processResults near rest (acceptStep p r dets st).2
            (acceptStep p r dets st).1) ∧
    (∀ (p : String) (r : GPlace) (dets : List (Option GPlace)) (st : GState),
      ((acceptStep p r dets st).1).dupByLoc = st.dupByLoc) ∧
    (∀ (near : ℚ × ℚ → ℚ × ℚ → Bool) (c : ℚ × ℚ) (p : GPlace),
      (p.rlat = none ∨ p.rlng = none) →
      ∀ pl1 pl2, isDuplicateLocation near c (pl1 ++ p :: pl2)
        = isDuplicateLocation near c (pl1 ++ pl2)) := by
  refine ⟨?_, ?_, ?_⟩
  · intro near r rest dets st p hp hseen hco
    rw [processResults, hp]
    dsimp only
    rw [if_neg hseen]
    rcases hco with h | h
    · rw [h]
    · rw [h]
      cases hla : r.rlat <;> rfl
  · intro p r dets st
    unfold acceptStep
    cases hdet : (getPlaceDetails dets { st with seen := p :: st.seen }).1 with
    | none =>
      simp only [hdet]
      show ((getPlaceDetails dets { st with seen := p :: st.seen }).2.1).dupByLoc
          = st.dupByLoc
      rw [getPlaceDetails.eq_def]
      split_ifs with hq
      · rfl
      · cases dets with
        | nil => rfl
        | cons d rest => cases d <;> rfl
    | some d =>
      simp only [hdet]
      show ((getPlaceDetails dets { st with seen := p :: st.seen }).2.1).dupByLoc
          = st.dupByLoc
      rw [getPlaceDetails.eq_def]
      split_ifs with hq
      · rfl
      · cases dets with
        | nil => rfl
        | cons d rest => cases d <;> rfl
  · intro near c p hp pl1 pl2
    exact isDuplicateLocation_skips_coordless near c p hp pl1 pl2

/-- Witness for C10: a coordinate-less candidate with a fresh id is accepted
without any proximity comparison, and a coordinate-less stored place is
transparent to the duplicate test. -/
theorem c10_coordless_bypass_witness :
    processResults (fun _ _ => true) [⟨some "a", none⟩] [] (initG 20000)
      = processResults (fun _ _ => true) []
          (acceptStep "a" ⟨some "a", none⟩ [] (initG 20000)).2
          (acceptStep "a" ⟨some "a", none⟩ [] (initG 20000)).1 ∧
    isDuplicateLocation (fun _ _ => true) (0, 0)
        ([] ++ (⟨some "b", none⟩ : GPlace) :: [])
      = isDuplicateLocation (fun _ _ => true) (0, 0) ([] ++ []) :=
  ⟨c10_coordless_bypass.1 (fun _ _ => true) ⟨some "a", none⟩ [] [] (initG 20000)
      "a" rfl (by decide) (Or.inl rfl),
   c10_coordless_bypass.2.2 (fun _ _ => true) (0, 0) ⟨some "b", none⟩
      (Or.inl rfl) [] []⟩

lemma getPlaceDetails_mem (dets : List (Option GPlace)) (st : GState)
    (d : GPlace) (h : (getPlaceDetails dets st).1 = some d) :
    some d ∈ dets := by
  rw [getPlaceDetails.eq_def] at h
  split_ifs at h with hq
  cases dets with
  | nil => simp at h
  | cons hd rest =>
    cases hd with
    | none => simp at h
    | some dp =>
      simp only [Option.some.injEq] at h
      rw [h]
      exact List.mem_cons_self _ _

lemma getPlaceDetails_rest (dets : List (Option GPlace)) (st : GState)
    (h : DetailsNoGeo dets) : DetailsNoGeo (getPlaceDetails dets st).2.2 := by
  rw [getPlaceDetails.eq_def]
  split_ifs with hq
  · exact h
  · cases dets with
    | nil => intro d hd; simp at hd
    | cons hd rest =>
      have hrest : DetailsNoGeo rest := fun d hd => h d (List.mem_cons_of_mem _ hd)
      cases hd with
      | none => exact hrest
      | some dp => exact hrest

lemma acceptStep_rest_noGeo (p : String) (r : GPlace)
    (dets : List (Option GPlace)) (st : GState) (h : DetailsNoGeo dets) :
    DetailsNoGeo (acceptStep p r dets st).2 := by
  unfold acceptStep
  cases hdet : (getPlaceDetails dets { st with seen := p :: st.seen }).1 with
  | none =>
    simp only [hdet]
    exact getPlaceDetails_rest dets _ h
  | some d =>
    simp only [hdet]
    exact getPlaceDetails_rest dets _ h

lemma acceptStep_places (p : String) (r : GPlace)
    (dets : List (Option GPlace)) (st : GState) (h : DetailsNoGeo dets) :
    ∃ m : GPlace, ((acceptStep p r dets st).1).places = st.places ++ [m]
      ∧ m.geo = r.geo := by
  unfold acceptStep
  cases hdet : (getPlaceDetails dets { st with seen := p :: st.seen }).1 with
  | none =>
    refine ⟨r, ?_, rfl⟩
    simp only [hdet]
    have : ((getPlaceDetails dets { st with seen := p :: st.seen }).2.1).places
        = st.places := by
      rw [getPlaceDetails.eq_def]
      split_ifs with hq
      · rfl
      · cases dets with
        | nil => rfl
        | cons d rest => cases d <;> rfl
    rw [this]
  | some d =>
    have hdg : d.geo = none :=
      h _ (getPlaceDetails_mem dets _ d hdet) d rfl
    refine ⟨mergePlace r d, ?_, ?_⟩
    · simp only [hdet]
      have : ((getPlaceDetails dets { st with seen := p :: st.seen }).2.1).places
          = st.places := by
        rw [getPlaceDetails.eq_def]
        split_ifs with hq
        · rfl
        · cases dets with
          | nil => rfl
          | cons dd rest => cases dd <;> rfl
      rw [this]
    · simp [mergePlace, hdg, Option.orElse]

lemma isDuplicateLocation_false (near : ℚ × ℚ → ℚ × ℚ → Bool) (c : ℚ × ℚ)
    (l : List GPlace) (h : isDuplicateLocation near c l = false) :
    ∀ p ∈ l, ∀ pa pb, p.rlat = some pa → p.rlng = some pb →
      near c (pa, pb) = false := by
  intro p hp pa pb hla hlb
  unfold isDuplicateLocation at h
  rw [List.any_eq_false] at h
  have := h p hp
  rw [hla, hlb] at this
  simpa using this

lemma locSep_processResults (near : ℚ × ℚ → ℚ × ℚ → Bool)
    (results : List GPlace) (dets : List (Option GPlace)) (st : GState)
    (hdets : DetailsNoGeo dets) (hsep : LocSeparated near st.places) :
    LocSeparated near ((processResults near results dets st).1).places := by
  induction results generalizing dets st with
  | nil => exact hsep
  | cons r rest ih =>
    rw [processResults]
    cases hpid : r.pid with
    | none => exact ih dets st hdets hsep
    | some p =>
      dsimp only
      split_ifs with hseen
      · exact ih dets _ hdets hsep
      · have haccept :
            LocSeparated near ((acceptStep p r dets st).1).places →
            LocSeparated near
              ((processResults near rest (acceptStep p r dets st).2
                (acceptStep p r dets st).1).1).places := by
          intro hs
          exact ih _ _ (acceptStep_rest_noGeo p r dets st hdets) hs
        cases hla : r.rlat with
        | none =>
          cases hlb : r.rlng with
          | none =>
            dsimp only
            apply haccept
            obtain ⟨m, hm, hmgeo⟩ := acceptStep_places p r dets st hdets
            rw [hm]
            rw [LocSeparated, List.pairwise_append]
            refine ⟨hsep, List.pairwise_singleton _ _, ?_⟩
            intro a ha b hb pa pb qa qb h1 h2 h3 h4
            simp only [List.mem_singleton] at hb
            subst hb
            exfalso
            rw [GPlace.rlat, hmgeo, ← GPlace.rlat, hla] at h3
            exact Option.noConfusion h3
          | some lb =>
            dsimp only
            apply haccept
            obtain ⟨m, hm, hmgeo⟩ := acceptStep_places p r dets st hdets
            rw [hm]
            rw [LocSeparated, List.pairwise_append]
            refine ⟨hsep, List.pairwise_singleton _ _, ?_⟩
            intro a ha b hb pa pb qa qb h1 h2 h3 h4
            simp only [List.mem_singleton] at hb
            subst hb
            exfalso
            rw [GPlace.rlat, hmgeo, ← GPlace.rlat, hla] at h3
            exact Option.noConfusion h3
        | some la =>
          cases hlb : r.rlng with
          | none =>
            dsimp only
            apply haccept
            obtain ⟨m, hm, hmgeo⟩ := acceptStep_places p r dets st hdets
            rw [hm]
            rw [LocSeparated, List.pairwise_append]
            refine ⟨hsep, List.pairwise_singleton _ _, ?_⟩
            intro a ha b hb pa pb qa qb h1 h2 h3 h4
            simp only [List.mem_singleton] at hb
            subst hb
            exfalso
            rw [GPlace.rlng, hmgeo, ← GPlace.rlng, hlb] at h4
            exact Option.noConfusion h4
          | some lb =>
            dsimp only
            split_ifs with hdup
            · exact ih dets _ hdets hsep
            · apply haccept
              obtain ⟨m, hm, hmgeo⟩ := acceptStep_places p r dets st hdets
              rw [hm]
              rw [LocSeparated, List.pairwise_append]
              refine ⟨hsep, List.pairwise_singleton _ _, ?_⟩
              intro a ha b hb pa pb qa qb h1 h2 h3 h4
              simp only [List.mem_singleton] at hb
              subst hb
              rw [GPlace.rlat, hmgeo, ← GPlace.rlat, hla] at h3
              rw [GPlace.rlng, hmgeo, ← GPlace.rlng, hlb] at h4
              cases h3
              cases h4
              exact isDuplicateLocation_false near (la, lb) st.places
                (Bool.not_eq_true _ ▸ hdup) a ha pa pb h1 h2

lemma searchLoop_places (pages : List PageResp) (st : GState)
    (acc : List GPlace) : ((searchLoop pages st acc).2).places = st.places := by
  induction pages generalizing st acc with
  | nil =>
    rw [searchLoop.eq_def]
    dsimp only
    split_ifs with hq
    · rfl
    · rfl
  | cons p rest ih =>
    rw [searchLoop.eq_def]
    dsimp only
    split_ifs with hq
    · rfl
    · cases p with
      | exn isReq =>
        dsimp only
        split_ifs with hreq
        · rfl
        · rfl
      | ok pls tok =>
        dsimp only
        split_ifs with hemp htok
        · rfl
        · exact ih _ _
        · rfl

lemma locSep_processTerm (near : ℚ × ℚ → ℚ × ℚ → Bool) (t : TermEnv)
    (st : GState) (hdets : DetailsNoGeo t.2)
    (hsep : LocSeparated near st.places) :
    LocSeparated near (processTerm near t st).places := by
  rw [processTerm]
  apply locSep_processResults near _ _ _ hdets
  rw [searchLoop_places]
  exact hsep

lemma locSep_termsLoop (near : ℚ × ℚ → ℚ × ℚ → Bool) (ts : List TermEnv)
    (st : GState) (hdets : ∀ t ∈ ts, DetailsNoGeo t.2)
    (hsep : LocSeparated near st.places) :
    LocSeparated near (termsLoop near ts st).places := by
  induction ts generalizing st with
  | nil => exact hsep
  | cons t ts ih =>
    rw [termsLoop]
    split_ifs with hst
    · exact locSep_processTerm near t st (hdets t (List.mem_cons_self _ _)) hsep
    · exact ih _ (fun u hu => hdets u (List.mem_cons_of_mem _ hu))
        (locSep_processTerm near t st (hdets t (List.mem_cons_self _ _)) hsep)

/-- **C2 (amended).** Provided every successful detail lookup leaves the
candidate's coordinates untouched (its response carries no geometry — the
source merges `{**result, **detailed_info}`, so a geometry in the detail
response replaces the coordinates that were used for the duplicate check),
every place-discovery run keeps its accepted places pairwise separated: for any
two distinct accepted places that both carry coordinates, the proximity test
`_calculate_distance(...) <= 50` evaluated by the engine is false — with the
code's haversine instantiation, their distance exceeds 50 meters.  Moreover a
candidate whose coordinates do lie within the threshold of an already-accepted
place (the test fires) is counted as `duplicates_by_location` and skipped
(second conjunct).  The original, unconditional claim is refuted by
`c2_location_separation_counterexample`. -/
theorem c2_location_separation :
    (∀ (near : ℚ × ℚ → ℚ × ℚ → Bool) (terms : List TermEnv) (db : DbResult)
       (limit : ℕ),
      (∀ t ∈ terms, DetailsNoGeo t.2) →
      LocSeparated near (gmapsCollect near terms db limit).places) ∧
    (∀ (near : ℚ × ℚ → ℚ × ℚ → Bool) (r : GPlace) (rest : List GPlace)
       (dets : List (Option GPlace)) (st : GState) (p : String) (la lb : ℚ),
      r.pid = some p → p ∉ st.seen → r.rlat = some la → r.rlng = some lb →
      isDuplicateLocation near (la, lb) st.places = true →
      processResults near (r :: rest) dets st
        = processResults near rest dets
            { st with dupByLoc := st.dupByLoc + 1 }) := by
  constructor
  · intro near terms db limit hdets
    rw [gmapsCollect]
    split_ifs with hempty
    · exact List.Pairwise.nil
    · have hloop := locSep_termsLoop near terms (initG limit) hdets
        List.Pairwise.nil
      dsimp only
      split_ifs with hpl hst hsave
      · exact hloop
      · exact hloop
      · cases db <;> exact hloop
      · cases db <;> exact hloop
  · intro near r rest dets st p la lb hp hseen hla hlb hdup
    rw [processResults, hp]
    dsimp only
    rw [if_neg hseen, hla, hlb]
    dsimp only
    rw [if_pos hdup]

/-- Witness for C2: the separation invariant on a run that accepts two far
places, and the skip clause on a state where the proximity test fires. -/
theorem c2_location_separation_witness :
    LocSeparated (fun _ _ => false)
      (gmapsCollect (fun _ _ => false)
        [([PageResp.ok [⟨some "a", some (some 0, some 0)⟩,
                        ⟨some "b", some (some 10, some 10)⟩] false], [])]
        DbResult.savedOk 20000).places ∧
    processResults (fun _ _ => true)
        [⟨some "b", some (some 0, some 0)⟩] []
        { initG 20000 with places := [⟨some "x", some (some 0, some 0)⟩] }
      = processResults (fun _ _ => true) [] []
          { { initG 20000 with places := [⟨some "x", some (some 0, some 0)⟩] }
              with dupByLoc := 0 + 1 } :=
  ⟨c2_location_separation.1 (fun _ _ => false) _ DbResult.savedOk 20000
      (by intro t ht d hd; simp at ht; subst ht; simp at hd),
   c2_location_separation.2 (fun _ _ => true) ⟨some "b", some (some 0, some 0)⟩
      [] [] _ "b" 0 0 rfl (by decide) rfl rfl (by decide)⟩

lemma deg2rad_zero : deg2rad 0 = 0 := by
  simp [deg2rad]

lemma deg2rad_neg (x : ℚ) : deg2rad (-x) = -deg2rad x := by
  simp [deg2rad]
  ring

/-- At identical coordinates the haversine distance is zero. -/
lemma haversineDist_self (la lb : ℚ) : haversineDist la lb la lb = 0 := by
  unfold haversineDist
  rw [sub_self, sub_self, deg2rad_zero]
  norm_num [atan2, Real.sqrt_one]

/-- The haversine formula is symmetric in its two coordinate pairs, so the
direction in which `_is_duplicate_location` compares a new candidate against a
stored place does not matter. -/
lemma haversineDist_symm (lat1 lng1 lat2 lng2 : ℚ) :
    haversineDist lat1 lng1 lat2 lng2 = haversineDist lat2 lng2 lat1 lng1 := by
  unfold haversineDist
  have e1 : Real.sin (deg2rad (lat1 - lat2) / 2) ^ 2
      = Real.sin (deg2rad (lat2 - lat1) / 2) ^ 2 := by
    rw [show (lat1 - lat2 : ℚ) = -(lat2 - lat1) by ring, deg2rad_neg,
      neg_div, Real.sin_neg, neg_sq]
  have e2 : Real.sin (deg2rad (lng1 - lng2) / 2) ^ 2
      = Real.sin (deg2rad (lng2 - lng1) / 2) ^ 2 := by
    rw [show (lng1 - lng2 : ℚ) = -(lng2 - lng1) by ring, deg2rad_neg,
      neg_div, Real.sin_neg, neg_sq]
  have ea : Real.sin (deg2rad (lat1 - lat2) / 2) ^ 2
      + Real.cos (deg2rad lat2) * Real.cos (deg2rad lat1)
        * Real.sin (deg2rad (lng1 - lng2) / 2) ^ 2
      = Real.sin (deg2rad (lat2 - lat1) / 2) ^ 2
      + Real.cos (deg2rad lat1) * Real.cos (deg2rad lat2)
        * Real.sin (deg2rad (lng2 - lng1) / 2) ^ 2 := by
    rw [e1, e2]
    ring
  rw [ea]

lemma nearHav_self_origin : nearHav 0 0 = true := by
  unfold nearHav
  simp only [decide_eq_true_eq, Prod.fst_zero, Prod.snd_zero]
  rw [haversineDist_self]
  norm_num

/-- **C2 counterexample.** A run of the engine as the source defines it (the
proximity test is `nearHav`) in which two distinct places are accepted whose
stored coordinates coincide, so their haversine distance is 0, not greater
than 50 meters: both search results lack coordinates (hence bypass the
duplicate check, and the proximity test is never even consulted), and the
detail responses — merged over the results by `{**result, **detailed_info}` —
supply identical coordinates `(0, 0)`. -/
theorem c2_location_separation_counterexample :
    (gmapsCollect nearHav
        [([PageResp.ok [⟨some "a", none⟩, ⟨some "b", none⟩] false],
          [some ⟨none, some (some 0, some 0)⟩,
           some ⟨none, some (some 0, some 0)⟩])]
        DbResult.savedOk 20000).places
      = [⟨some "a", some (some 0, some 0)⟩, ⟨some "b", some (some 0, some 0)⟩]
    ∧ ¬ (50 < haversineDist 0 0 0 0) := by
  constructor
  · rfl
  · rw [haversineDist_self]
    norm_num

/-- **C8 counterexample.** A run of the engine as the source defines it, on a
result stream in which the identifier `"b"` occurs twice: the first `"b"`
occurrence (coordinates `(0,0)`) is discarded as a location-duplicate of the
already-accepted `"a"` (distance 0 ≤ 50), which does *not* mark `"b"` as seen;
the second `"b"` occurrence (no coordinates) is then accepted.  So an
occurrence other than the first is accepted, and the id-duplicate counter
stays 0 although the identifier repeated — refuting the claim that only the
first occurrence of a repeated identifier can be accepted. -/
theorem c8_seen_id_skipped_counterexample :
    (gmapsCollect nearHav
        [([PageResp.ok [⟨some "a", some (some 0, some 0)⟩,
                        ⟨some "b", some (some 0, some 0)⟩,
                        ⟨some "b", none⟩] false], [])]
        DbResult.savedOk 20000).places
      = [⟨some "a", some (some 0, some 0)⟩, ⟨some "b", none⟩]
    ∧ (gmapsCollect nearHav
        [([PageResp.ok [⟨some "a", some (some 0, some 0)⟩,
                        ⟨some "b", some (some 0, some 0)⟩,
                        ⟨some "b", none⟩] false], [])]
        DbResult.savedOk 20000).dupById = 0
    ∧ (gmapsCollect nearHav
        [([PageResp.ok [⟨some "a", some (some 0, some 0)⟩,
                        ⟨some "b", some (some 0, some 0)⟩,
                        ⟨some "b", none⟩] false], [])]
        DbResult.savedOk 20000).dupByLoc = 1 := by
  have hrun : gmapsCollect nearHav
      [([PageResp.ok [⟨some "a", some (some 0, some 0)⟩,
                      ⟨some "b", some (some 0, some 0)⟩,
                      ⟨some "b", none⟩] false], [])]
      DbResult.savedOk 20000
      = { limit := 20000, quotaUsed := 32, status := .completed
          reason := "Collection completed successfully", textSearches := 1
          detailsFetched := 0, dupById := 0, dupByLoc := 1
          places := [⟨some "a", some (some 0, some 0)⟩, ⟨some "b", none⟩]
          seen := ["b", "a"] } := by
    simp [gmapsCollect, termsLoop, processTerm, searchLoop, processResults,
      acceptStep, getPlaceDetails, isDuplicateLocation, bumpSearch, initG,
      mergePlace, GPlace.rlat, GPlace.rlng, nearHav_self_origin,
      quotaExceededSt, saveToDatabase, TEXT_SEARCH_QUOTA_COST,
      PLACE_DETAILS_QUOTA_COST]
  rw [hrun]
  exact ⟨rfl, rfl, rfl⟩

/-! ### C4: retry/backoff and terminal classification -/
lemma fetchGo_consumed (rs : List FetchResp) (attempt : ℕ) (st : FedState)
    (bk : List ℕ) (hatt : attempt ≤ MAX_RETRIES + 2) :
    rs.length + attempt
      ≤ ((fetchGo rs attempt st bk).2.2.2).length + (MAX_RETRIES + 2) := by
  have hM : MAX_RETRIES = 2 := rfl
  induction rs generalizing attempt st bk with
  | nil =>
    rw [fetchGo.eq_def]
    dsimp only
    split_ifs <;> simp only [List.length_nil] <;> omega
  | cons r rest ih =>
    rw [fetchGo.eq_def]
    dsimp only
    cases r <;>
      · dsimp only
        split_ifs <;>
          first
          | (simp only [List.length_cons]; omega)
          | (have h := ih (attempt + 1) st (bk ++ [2 ^ (attempt - 1)])
               (by omega)
             simp only [List.length_cons]
             omega)
          | (have h := ih (attempt + 1) st bk (by omega)
             simp only [List.length_cons]
             omega)

/-- **C4 (amended: `2xx` weakened to `200`, which is all the code treats as
success).**  For a registry lookup on a 14-character id with a working
database: an HTTP 404 terminates at once as `completed` with the
CNPJ-not-found reason, persisting `{}` with `data_fetched = false`; an HTTP
200 yields `completed`, persists the payload, `data_fetched = true`; HTTP 429
and the timeout exception classes are retried with backoff sleeps of 2 s then
4 s before the two retries, a 200 on the final retry still succeeding;
exhausting the retries yields `failed` with a reason naming the failure class
(rate limit vs timeout vs other HTTP status, the latter failing immediately
with no retry); and a run never consumes more than `MAX_RETRIES + 1 = 3`
attempts. -/
theorem c4_registry_retry :
    (∀ cnpj b rest, cnpj.length = 14 →
      fedCollect cnpj (.http 404 b :: rest) DbResult.savedOk
        = ⟨⟨.completed, "CNPJ not found in federal registry", false⟩, [],
           [(none, .completed, "CNPJ not found in federal registry")]⟩) ∧
    (∀ cnpj b rest, cnpj.length = 14 →
      fedCollect cnpj (.http 200 b :: rest) DbResult.savedOk
        = ⟨⟨.completed, "Successfully fetched federal data", true⟩, [],
           [(some b, .completed, "Successfully fetched federal data")]⟩) ∧
    (∀ cnpj b b1 b2 rest, cnpj.length = 14 →
      fedCollect cnpj
          (.http 429 b1 :: .http 429 b2 :: .http 200 b :: rest)
          DbResult.savedOk
        = ⟨⟨.completed, "Successfully fetched federal data", true⟩, [2, 4],
           [(some b, .completed, "Successfully fetched federal data")]⟩) ∧
    (∀ cnpj b1 b2 b3 rest, cnpj.length = 14 →
      fedCollect cnpj
          (.http 429 b1 :: .http 429 b2 :: .http 429 b3 :: rest)
          DbResult.savedOk
        = ⟨⟨.failed, "API rate limit exceeded", false⟩, [2, 4],
           [(none, .failed, "API rate limit exceeded")]⟩) ∧
    (∀ cnpj rest, cnpj.length = 14 →
      fedCollect cnpj (.timeout :: .timeout :: .timeout :: rest)
          DbResult.savedOk
        = ⟨⟨.failed, "API request timeout (after 3 attempts)", false⟩, [2, 4],
           [(none, .failed, "API request timeout (after 3 attempts)")]⟩) ∧
    (∀ cnpj code b rest, cnpj.length = 14 →
      code ≠ 200 → code ≠ 404 → code ≠ 429 →
      fedCollect cnpj (.http code b :: rest) DbResult.savedOk
        = ⟨⟨.failed, "API error: HTTP " ++ toString code, false⟩, [],
           [(none, .failed, "API error: HTTP " ++ toString code)]⟩) ∧
    (∀ rs st bk,
      rs.length ≤ ((fetchGo rs 1 st bk).2.2.2).length + (MAX_RETRIES + 1)) := by
  refine ⟨?_, ?_, ?_, ?_, ?_, ?_, ?_⟩
  · intro cnpj b rest hc
    simp [fedCollect, fedBody, fetchGo, fedSave, initFed, MAX_RETRIES, hc]
  · intro cnpj b rest hc
    simp [fedCollect, fedBody, fetchGo, fedSave, initFed, MAX_RETRIES, hc]
  · intro cnpj b b1 b2 rest hc
    simp [fedCollect, fedBody, fetchGo, fedSave, initFed, MAX_RETRIES, hc]
  · intro cnpj b1 b2 b3 rest hc
    simp [fedCollect, fedBody, fetchGo, fedSave, initFed, MAX_RETRIES, hc]
  · intro cnpj rest hc
    simp [fedCollect, fedBody, fetchGo, fedSave, initFed, MAX_RETRIES, hc]
    rfl
  · intro cnpj code b rest hc h200 h404 h429
    simp [fedCollect, fedBody, fetchGo, fedSave, initFed, MAX_RETRIES, hc,
      h200, h404, h429]
  · intro rs st bk
    have h := fetchGo_consumed rs 1 st bk (by simp [MAX_RETRIES])
    omega

/-- **C4 counterexample.** The claim as stated says *any 2xx response* yields
`completed` with the payload persisted; the code accepts only status 200: an
HTTP 201 carrying a payload is classified `failed` with reason
`"API error: HTTP 201"` and `data_fetched` stays false. -/
theorem c4_registry_retry_counterexample :
    (fedCollect "11222333000181" [.http 201 "payload"] DbResult.savedOk).st
      = ⟨.failed, "API error: HTTP 201", false⟩ := by
  rfl

/-- Witness for C4: the 429-then-200 scenario at a concrete CNPJ and payload,
and the 404 scenario. -/
theorem c4_registry_retry_witness :
    fedCollect "11222333000181"
        [.http 429 "", .http 429 "", .http 200 "B"] DbResult.savedOk
      = ⟨⟨.completed, "Successfully fetched federal data", true⟩, [2, 4],
         [(some "B", .completed, "Successfully fetched federal data")]⟩ ∧
    fedCollect "11222333000181" [.http 404 ""] DbResult.savedOk
      = ⟨⟨.completed, "CNPJ not found in federal registry", false⟩, [],
         [(none, .completed, "CNPJ not found in federal registry")]⟩ :=
  ⟨c4_registry_retry.2.2.1 "11222333000181" "B" "" "" [] rfl,
   c4_registry_retry.1 "11222333000181" "" [] rfl⟩

/-! ### C6: robots gate; C5: final status classification -/
lemma fetchPage_saves (st : WState) (fs : List (Option String)) :
    ((fetchPage st fs).2.1).saves = st.saves := by
  cases fs with
  | nil => rfl
  | cons f rest => cases f <;> rfl

lemma validateCands_saves (us : List String) (st : WState)
    (fs : List (Option String)) :
    ((validateCands us st fs).2.1).saves = st.saves := by
  induction us generalizing st fs with
  | nil => rfl
  | cons u us ih =>
    rw [validateCands.eq_def]
    dsimp only
    cases hf : (fetchPage st fs).1 with
    | none =>
      rw [ih]
      exact fetchPage_saves st fs
    | some html =>
      dsimp only
      rw [ih]
      exact fetchPage_saves st fs

lemma fetchSelected_saves (us : List String) (st : WState)
    (fs : List (Option String)) :
    ((fetchSelected us st fs).2.1).saves = st.saves := by
  induction us generalizing st fs with
  | nil => rfl
  | cons u us ih =>
    rw [fetchSelected.eq_def]
    dsimp only
    cases hf : (fetchPage st fs).1 with
    | none =>
      rw [ih]
      exact fetchPage_saves st fs
    | some html =>
      dsimp only
      rw [ih]
      exact fetchPage_saves st fs

lemma wAfterContent_saves (env : WEnv) :
    ((wAfterContent env).2.1).saves = [] := by
  unfold wAfterContent wAfterDiscovery discoverPages
  rw [fetchSelected_saves, validateCands_saves, fetchPage_saves]
  rfl

/-- **C6.** `_check_robots_txt` fails open: whenever reading `robots.txt`
raises, the check answers allowed.  And when the parser explicitly disallows
the configured user agent, `collect_data` short-circuits: the final state is
exactly `completed` with reason "Scraping disallowed by robots.txt", that
outcome is persisted, and no page was fetched — the disallow is success, not
an error. -/
theorem c6_robots_failopen :
    (∀ e, checkRobots (Except.error e) = true) ∧
    (∀ env : WEnv, checkRobots env.robots = false → env.db = DbResult.savedOk →
      wCollect env = { initW with
        status := .completed
        reason := "Scraping disallowed by robots.txt"
        saves := [([], .completed, "Scraping disallowed by robots.txt")] }) := by
  constructor
  · intro e
    rfl
  · intro env hrob hdb
    unfold wCollect wBody
    rw [hrob, hdb]
    rfl

/-- Witness for C6: a concrete environment whose robots answer is an explicit
disallow. -/
theorem c6_robots_failopen_witness :
    wCollect { robots := Except.ok false, navLinks := [], sitemapLinks := []
               commonPaths := [], candOrder := [], fetches := ["page"]
               extracted := [], db := DbResult.savedOk }
      = { initW with
          status := .completed
          reason := "Scraping disallowed by robots.txt"
          saves := [([], .completed, "Scraping disallowed by robots.txt")] } :=
  c6_robots_failopen.2
    { robots := Except.ok false, navLinks := [], sitemapLinks := []
      commonPaths := [], candOrder := [], fetches := ["page"]
      extracted := [], db := DbResult.savedOk } rfl rfl

lemma cnpjStep_ok (data : List (String × JVal)) (st3 : WState)
    (hsafe : CnpjSafe data) :
    ∃ st', cnpjStep data st3 = .ok st' ∧ st'.status = st3.status ∧
      st'.reason = st3.reason ∧ st'.saves = st3.saves := by
  unfold cnpjStep
  cases hd : data.isEmpty with
  | true => exact ⟨st3, rfl, rfl, rfl, rfl⟩
  | false =>
    simp only [Bool.not_false, if_true]
    cases hcn : lookupKey data "cnpj" with
    | none => exact ⟨st3, rfl, rfl, rfl, rfl⟩
    | some jv =>
      dsimp only
      cases htr : jv.truthy with
      | false =>
        simp only [Bool.false_eq_true, if_false]
        exact ⟨st3, rfl, rfl, rfl, rfl⟩
      | true =>
        simp only [if_true]
        obtain ⟨cs, hcs⟩ := hsafe jv hcn htr
        subst hcs
        dsimp only
        cases hcl : clean_cnpj cs with
        | none => exact ⟨st3, rfl, rfl, rfl, rfl⟩
        | some c =>
          dsimp only
          cases hv : validate_cnpj c with
          | false =>
            simp only [Bool.false_eq_true, if_false]
            exact ⟨st3, rfl, rfl, rfl, rfl⟩
          | true =>
            simp only [if_true]
            exact ⟨{ st3 with queued := st3.queued ++ [c] }, rfl, rfl, rfl, rfl⟩

/-- **C5.** Final status classification of a website-enrichment run that
passes the robots gate, with a working database (and, for the success paths,
an extracted payload whose `cnpj` entry cannot crash the follow-on step):
zero fetchable pages → status `partial` (`incomplete` here) with the exact
"Failed to fetch any pages (tried N)" reason and the empty payload persisted;
non-empty extraction and no failed page fetch → `completed`; non-empty
extraction but some failed page fetch → `partial`; empty extraction →
`failed`, the payload persisted as empty. -/
theorem c5_status_classification :
    ∀ env : WEnv, checkRobots env.robots = true → env.db = DbResult.savedOk →
      ((wAfterContent env).1 = [] →
        (wCollect env).status = .incomplete ∧
        (wCollect env).reason
          = "Failed to fetch any pages (tried "
            ++ toString (wAfterDiscovery env).1.length ++ ")" ∧
        (wCollect env).saves
          = [([], .incomplete,
              "Failed to fetch any pages (tried "
                ++ toString (wAfterDiscovery env).1.length ++ ")")]) ∧
      ((wAfterContent env).1 ≠ [] → env.extracted ≠ [] →
        ((wAfterContent env).2.1).pagesFailed = 0 → CnpjSafe env.extracted →
        (wCollect env).status = .completed) ∧
      ((wAfterContent env).1 ≠ [] → env.extracted ≠ [] →
        ((wAfterContent env).2.1).pagesFailed > 0 → CnpjSafe env.extracted →
        (wCollect env).status = .incomplete) ∧
      ((wAfterContent env).1 ≠ [] → env.extracted = [] →
        (wCollect env).status = .failed ∧
        (wCollect env).reason = "Failed to extract structured data from pages" ∧
        (wCollect env).saves
          = [([], .failed, "Failed to extract structured data from pages")]) := by
  intro env hrob hdb
  have hsv := wAfterContent_saves env
  have hshow : fetchSelected (wAfterDiscovery env).1 (wAfterDiscovery env).2.1
      (wAfterDiscovery env).2.2 = wAfterContent env := rfl
  refine ⟨?_, ?_, ?_, ?_⟩
  · intro hempty
    unfold wCollect wBody
    rw [hrob]
    simp only [Bool.true_eq_false, if_false]
    rw [hshow, List.isEmpty_iff.mpr hempty]
    rw [hdb]
    simp only [if_true, wSave]
    rw [hsv]
    simp
  · intro hne hdata h0 hsafe
    unfold wCollect wBody
    rw [hrob]
    simp only [Bool.true_eq_false, if_false]
    rw [hshow]
    rw [show (wAfterContent env).1.isEmpty = false from
      Bool.eq_false_iff.mpr (fun h => hne (List.isEmpty_iff.mp h))]
    simp only [Bool.false_eq_true, if_false]
    rw [show env.extracted.isEmpty = false from
      Bool.eq_false_iff.mpr (fun h => hdata (List.isEmpty_iff.mp h))]
    simp only [Bool.not_false, if_true]
    rw [h0]
    simp only [gt_iff_lt, lt_irrefl, if_false]
    rw [hdb]
    obtain ⟨st', hok, hstat, -, -⟩ := cnpjStep_ok env.extracted _ hsafe
    rw [hok]
    dsimp only
    rw [hstat]
    rfl
  · intro hne hdata hpos hsafe
    unfold wCollect wBody
    rw [hrob]
    simp only [Bool.true_eq_false, if_false]
    rw [hshow]
    rw [show (wAfterContent env).1.isEmpty = false from
      Bool.eq_false_iff.mpr (fun h => hne (List.isEmpty_iff.mp h))]
    simp only [Bool.false_eq_true, if_false]
    rw [show env.extracted.isEmpty = false from
      Bool.eq_false_iff.mpr (fun h => hdata (List.isEmpty_iff.mp h))]
    simp only [Bool.not_false, if_true]
    rw [if_pos hpos]
    rw [hdb]
    obtain ⟨st', hok, hstat, -, -⟩ := cnpjStep_ok env.extracted _ hsafe
    rw [hok]
    dsimp only
    rw [hstat]
    rfl
  · intro hne hdata
    unfold wCollect wBody
    rw [hrob]
    simp only [Bool.true_eq_false, if_false]
    rw [hshow]
    rw [show (wAfterContent env).1.isEmpty = false from
      Bool.eq_false_iff.mpr (fun h => hne (List.isEmpty_iff.mp h))]
    simp only [Bool.false_eq_true, if_false]
    rw [hdata]
    simp only [List.isEmpty_nil, Bool.not_true, Bool.false_eq_true, if_false]
    rw [hdb]
    have hcn : cnpjStep ([] : List (String × JVal))
        (wSave DbResult.savedOk []
          { (wAfterContent env).2.1 with
            status := WStatus.failed
            reason := "Failed to extract structured data from pages" }).2
        = Except.ok (wSave DbResult.savedOk []
          { (wAfterContent env).2.1 with
            status := WStatus.failed
            reason := "Failed to extract structured data from pages" }).2 := rfl
    rw [hcn]
    dsimp only
    simp only [wSave]
    rw [hsv]
    simp

/-- Witness for C5: concrete environments exercising the zero-pages clause and
the all-fetched/non-empty-extraction clause. -/
theorem c5_status_classification_witness :
    (wCollect { robots := Except.ok true, navLinks := [], sitemapLinks := []
                commonPaths := [], candOrder := ["u"], fetches := [none, none]
                extracted := [], db := DbResult.savedOk }).status
      = WStatus.incomplete ∧
    (wCollect { robots := Except.ok true, navLinks := [], sitemapLinks := []
                commonPaths := [], candOrder := ["u"]
                fetches := [some "h", some "c", some "c"]
                extracted := [("brand_name", JVal.str "X")]
                db := DbResult.savedOk }).status
      = WStatus.completed := by
  constructor
  · exact ((c5_status_classification
      { robots := Except.ok true, navLinks := [], sitemapLinks := []
        commonPaths := [], candOrder := ["u"], fetches := [none, none]
        extracted := [], db := DbResult.savedOk } rfl rfl).1 (by rfl)).1
  · exact (c5_status_classification
      { robots := Except.ok true, navLinks := [], sitemapLinks := []
        commonPaths := [], candOrder := ["u"]
        fetches := [some "h", some "c", some "c"]
        extracted := [("brand_name", JVal.str "X")]
        db := DbResult.savedOk } rfl rfl).2.1 (by decide) (by decide) (by rfl)
      (by intro jv hjv htr; simp [lookupKey] at hjv)

/-! ### C7: page discovery selects the largest pages, in order -/
lemma fetchPage_counters (st : WState) (fs : List (Option String)) :
    ((fetchPage st fs).2.1).pagesFetched + ((fetchPage st fs).2.1).pagesFailed
      = st.pagesFetched + st.pagesFailed + 1 := by
  cases fs with
  | nil =>
    simp only [fetchPage]
    omega
  | cons f rest => cases f <;> simp [fetchPage] <;> omega

lemma validateCands_counters (us : List String) (st : WState)
    (fs : List (Option String)) :
    ((validateCands us st fs).2.1).pagesFetched
        + ((validateCands us st fs).2.1).pagesFailed
      = st.pagesFetched + st.pagesFailed + us.length := by
  induction us generalizing st fs with
  | nil => simp [validateCands]
  | cons u us ih =>
    rw [validateCands.eq_def]
    dsimp only
    cases hf : (fetchPage st fs).1 with
    | none =>
      rw [ih]
      rw [fetchPage_counters]
      simp only [List.length_cons]
      omega
    | some html =>
      dsimp only
      rw [ih]
      rw [fetchPage_counters]
      simp only [List.length_cons]
      omega

lemma validateCands_mem (us : List String) (st : WState)
    (fs : List (Option String)) (u : String) (n : ℕ)
    (h : (u, n) ∈ (validateCands us st fs).1) : u ∈ us := by
  induction us generalizing st fs with
  | nil => simp [validateCands] at h
  | cons v us ih =>
    rw [validateCands.eq_def] at h
    dsimp only at h
    cases hf : (fetchPage st fs).1 with
    | none =>
      rw [hf] at h
      exact List.mem_cons_of_mem _ (ih _ _ h)
    | some html =>
      rw [hf] at h
      dsimp only at h
      rcases List.mem_cons.mp h with heq | hmem
      · rw [Prod.mk.injEq] at heq
        rw [heq.1]
        exact List.mem_cons_self _ _
      · exact List.mem_cons_of_mem _ (ih _ _ hmem)

lemma sortDesc_pairwise (l : List (String × ℕ)) :
    (sortDesc l).Pairwise (fun a b => b.2 ≤ a.2) := by
  haveI htot : IsTotal (String × ℕ) (fun a b => b.2 ≤ a.2) :=
    ⟨fun a b => le_total b.2 a.2⟩
  haveI htr : IsTrans (String × ℕ) (fun a b => b.2 ≤ a.2) :=
    ⟨fun a b c hab hbc => le_trans hbc hab⟩
  exact List.sorted_insertionSort _ l

lemma sortDesc_perm (l : List (String × ℕ)) : (sortDesc l).Perm l :=
  List.perm_insertionSort _ l

lemma pageOfSize_length (n : ℕ) : (pageOfSize n).length = n := by
  simp [pageOfSize, String.length]

/-- **C7.** `_discover_pages` fetches every candidate URL (one fetch per
candidate, plus the homepage fetch of the navigation strategy), discards the
unreachable ones, sorts the reachable ones by content length descending
(conjuncts 1–2: the sort is ordered and a permutation), and selects exactly
the top `MAX_PAGES_PER_SITE = 15` in that order (conjuncts 3–6: bound,
membership, exhaustive-fetch accounting, and every dropped page is no larger
than every selected one).  On candidates of sizes 500, 3000, 100, 8000 the
selection is exactly `[u4, u2, u1, u3]`, whose top two are the 8000- and
3000-byte pages in that order (conjunct 7). -/
theorem c7_page_ranking :
    (∀ l : List (String × ℕ),
      (sortDesc l).Pairwise (fun a b => b.2 ≤ a.2)) ∧
    (∀ l : List (String × ℕ), (sortDesc l).Perm l) ∧
    (∀ (env : WEnv) (st : WState),
      (discoverPages env st).1.length ≤ MAX_PAGES_PER_SITE) ∧
    (∀ (env : WEnv) (st : WState) (u : String),
      u ∈ (discoverPages env st).1 → u ∈ env.candOrder) ∧
    (∀ (env : WEnv) (st : WState),
      ((discoverPages env st).2.1).pagesFetched
          + ((discoverPages env st).2.1).pagesFailed
        = st.pagesFetched + st.pagesFailed + env.candOrder.length + 1) ∧
    (∀ (l : List (String × ℕ)) (x y : String × ℕ),
      x ∈ (sortDesc l).drop MAX_PAGES_PER_SITE →
      y ∈ (sortDesc l).take MAX_PAGES_PER_SITE → x.2 ≤ y.2) ∧
    ((discoverPages c7Env initW).1 = ["u4", "u2", "u1", "u3"] ∧
      ((discoverPages c7Env initW).1).take 2 = ["u4", "u2"]) := by
  refine ⟨sortDesc_pairwise, sortDesc_perm, ?_, ?_, ?_, ?_, ?_⟩
  · intro env st
    unfold discoverPages
    calc (((sortDesc _).take MAX_PAGES_PER_SITE).map Prod.fst).length
        = ((sortDesc _).take MAX_PAGES_PER_SITE).length := List.length_map _ _
      _ ≤ MAX_PAGES_PER_SITE := List.length_take_le _ _
  · intro env st u hu
    unfold discoverPages at hu
    dsimp only at hu
    rw [List.mem_map] at hu
    obtain ⟨⟨u', n⟩, hmem, hfst⟩ := hu
    have h1 : (u', n) ∈ sortDesc (validateCands env.candOrder
        (fetchPage st env.fetches).2.1 (fetchPage st env.fetches).2.2).1 :=
      List.mem_of_mem_take hmem
    have h2 := (sortDesc_perm _).mem_iff.mp h1
    have h3 := validateCands_mem _ _ _ u' n h2
    rw [← hfst]
    exact h3
  · intro env st
    unfold discoverPages
    dsimp only
    rw [validateCands_counters, fetchPage_counters]
    omega
  · intro l x y hx hy
    have hpw := sortDesc_pairwise l
    rw [← List.take_append_drop MAX_PAGES_PER_SITE (sortDesc l),
      List.pairwise_append] at hpw
    exact hpw.2.2 y hy x hx
  · have hsel : (discoverPages c7Env initW).1 = ["u4", "u2", "u1", "u3"] := by
      unfold discoverPages
      dsimp only
      rw [show (validateCands c7Env.candOrder (fetchPage initW c7Env.fetches).2.1
          (fetchPage initW c7Env.fetches).2.2).1
          = [("u1", 500), ("u2", 3000), ("u3", 100), ("u4", 8000)] from by
        simp [validateCands, fetchPage, c7Env, pageOfSize_length]]
      rw [show sortDesc [("u1", 500), ("u2", 3000), ("u3", 100), ("u4", 8000)]
          = [("u4", 8000), ("u2", 3000), ("u1", 500), ("u3", 100)] from by
        simp [sortDesc, List.insertionSort, List.orderedInsert]]
      rfl
    exact ⟨hsel, by rw [hsel]; rfl⟩

/-- Witness for C7: the membership clause applied at the concrete example
environment. -/
theorem c7_page_ranking_witness :
    "u4" ∈ c7Env.candOrder :=
  c7_page_ranking.2.2.2.1 c7Env initW "u4"
    (by rw [c7_page_ranking.2.2.2.2.2.2.1]; exact List.mem_cons_self _ _)

/-- **C9 counterexample.** The place-discovery engine's `collect_data`
propagates an exception: after accepting a first result with numeric
coordinates, a second result whose latitude is the JSON string `"x"` reaches
`_is_duplicate_location` → `_calculate_distance` → `math.radians`, which
raises `TypeError`; no handler exists between there and the caller, so the
run's outcome is the uncaught exception. -/
theorem c9_top_level_catch_counterexample :
    gmapsCollectJ (fun _ _ => false)
      [⟨some "a", some (.num 0), some (.num 0)⟩,
       ⟨some "b", some (.str "x"), some (.num 1)⟩]
      = .error (.typeError "must be real number, not str") := rfl

/-- **C9 (amended).** The website-enrichment and registry-lookup engines
never propagate an exception past `collect_data`: whenever their body raises,
the top-level handler classifies the run as `failed` and still persists the
outcome (first two conjuncts).  The place-discovery engine's `collect_data`,
however, has no top-level handler, and a concrete run of it ends in an
uncaught `TypeError` (third conjunct) — refuting the claim for all three
engines. -/
theorem c9_top_level_catch :
    (∀ (env : WEnv) (e : PyExc) (stE : WState),
      wBody env = .error (e, stE) → env.db = DbResult.savedOk →
      (wCollect env).status = .failed ∧ (wCollect env).saves ≠ []) ∧
    (∀ (cnpj : String) (rs : List FetchResp) (e : PyExc),
      fedBody cnpj rs DbResult.savedOk = .error e →
      (fedCollect cnpj rs DbResult.savedOk).st.status = .failed ∧
      (fedCollect cnpj rs DbResult.savedOk).saves ≠ []) ∧
    (gmapsCollectJ (fun _ _ => false)
      [⟨some "a", some (.num 0), some (.num 0)⟩,
       ⟨some "b", some (.str "x"), some (.num 1)⟩]).isOk = false := by
  refine ⟨?_, ?_, rfl⟩
  · intro env e stE herr hdb
    unfold wCollect
    rw [herr]
    cases e with
    | valueError m =>
      rw [hdb]
      exact ⟨rfl, by simp [wSave]⟩
    | typeError m =>
      rw [hdb]
      exact ⟨rfl, by simp [wSave]⟩
  · intro cnpj rs e herr
    unfold fedCollect
    rw [herr]
    cases e with
    | valueError m => exact ⟨rfl, by simp [fedSave]⟩
    | typeError m => exact ⟨rfl, by simp [fedSave]⟩

/-- Witness for C9: the website handler applied at an environment whose
extracted `cnpj` is the number 5 (a truthy non-string, so the follow-on step
raises), and the registry handler applied at a malformed 3-character CNPJ. -/
theorem c9_top_level_catch_witness :
    ((wCollect { robots := Except.ok true, navLinks := [], sitemapLinks := []
                 commonPaths := [], candOrder := ["u"]
                 fetches := [some "h", some "c", some "c2"]
                 extracted := [("cnpj", JVal.num 5)]
                 db := DbResult.savedOk }).status = WStatus.failed ∧
     (wCollect { robots := Except.ok true, navLinks := [], sitemapLinks := []
                 commonPaths := [], candOrder := ["u"]
                 fetches := [some "h", some "c", some "c2"]
                 extracted := [("cnpj", JVal.num 5)]
                 db := DbResult.savedOk }).saves ≠ []) ∧
    ((fedCollect "123" [] DbResult.savedOk).st.status = FStatus.failed ∧
     (fedCollect "123" [] DbResult.savedOk).saves ≠ []) :=
  ⟨c9_top_level_catch.1
      { robots := Except.ok true, navLinks := [], sitemapLinks := []
        commonPaths := [], candOrder := ["u"]
        fetches := [some "h", some "c", some "c2"]
        extracted := [("cnpj", JVal.num 5)]
        db := DbResult.savedOk }
      (PyExc.typeError "expected string or bytes-like object")
      { status := WStatus.completed
        reason := "Successfully scraped 3 pages"
        pagesFetched := 3
        pagesFailed := 0
        saves := [([("cnpj", JVal.num 5)], WStatus.completed,
                   "Successfully scraped 3 pages")]
        queued := [] }
      (by rfl) rfl,
   c9_top_level_catch.2.1 "123" []
      (PyExc.valueError "Invalid CNPJ format: 123") (by rfl)⟩

end Auris

